import Mathlib

set_option maxRecDepth 16384

/-!
Verification of the AI image generator service: a shallow embedding of the
prompt classifier, the palette selectors, the procedural scene renderer of
test_app.py, the constant 3D mesh emitters, the two memory stores, and the
request execution pipeline of main.py, together with theorems settling the
specification claims.

Modelling conventions:
- machine integers are `Int`/`Nat` (no overflow is reachable in the source
  ranges);
- Python floats are exact rationals `ℚ`; all arithmetic in the drawing code
  is decimal arithmetic except `math.sin`, which is abstracted as a function
  parameter `psin` (no settled claim depends on its values);
- the global `random` generator is an explicit stream of raw natural draws
  with a current index, threaded through every drawing function; each call
  to `randint` / `random` / `uniform` consumes exactly one raw draw;
- fallible steps return `Option`; faults of the SQLite backend are injected
  through an explicit `dbFail` flag.
-/

/-- Python `str.lower()`; `Char.toLower` lowers the ASCII range, which covers
every keyword comparison in the source. -/
def pyLower (s : String) : String := ⟨s.toList.map Char.toLower⟩

/-- Character-list helper: the first argument starts the second. -/
def startsList : List Char → List Char → Bool
  | [], _ => true
  | _ :: _, [] => false
  | a :: as, b :: bs => a == b && startsList as bs

/-- Character-list helper: the first argument occurs as a contiguous run in
the second. -/
def subList (needle : List Char) : List Char → Bool
  | [] => startsList needle []
  | b :: bs => startsList needle (b :: bs) || subList needle bs

/-- The Python substring operator `needle in hay` on strings. -/
def strIn (needle hay : String) : Bool := subList needle.toList hay.toList

/-- String equality through the character lists. -/
def strEq (a b : String) : Bool := a.toList == b.toList

/-- Python `int(x)` on a float: truncation toward zero. -/
def pyInt (q : ℚ) : Int := if 0 ≤ q then ⌊q⌋ else -⌊-q⌋

/-- Python floor division `a // b` on integers. -/
def pyFloorDiv (a b : Int) : Int := Int.fdiv a b

/-- Splitting fold on characters: accumulate the current word, cutting at
whitespace and dropping empty pieces. -/
def wsFold (l : List Char) : List (List Char) :=
  let fin := l.foldl (fun (acc : List (List Char) × List Char) c =>
    if c.isWhitespace then (if acc.2.isEmpty then acc else (acc.1 ++ [acc.2.reverse], []))
    else (acc.1, c :: acc.2)) ([], [])
  if fin.2.isEmpty then fin.1 else fin.1 ++ [fin.2.reverse]

/-- Python `str.split()` with no argument: split on runs of whitespace,
dropping empty pieces. -/
def pySplit (s : String) : List String := (wsFold s.toList).map (fun cs => ⟨cs⟩)

/-- Python `str.strip()`. -/
def pyStrip (s : String) : String :=
  ⟨((s.toList.dropWhile Char.isWhitespace).reverse.dropWhile Char.isWhitespace).reverse⟩

/-- Python `json.dumps` on a list of strings. -/
def jsonDumps (tags : List String) : String :=
  "[" ++ String.intercalate ", " (tags.map (fun t => "\"" ++ t ++ "\"")) ++ "]"

/-- Fuel-bounded splitting of a character list at every occurrence of a
non-empty separator (`fuel` one beyond the list length always suffices). -/
def splitOnFuel (sep : List Char) : Nat → List Char → List Char → List (List Char)
  | 0, acc, rest => [acc.reverse ++ rest]
  | fuel + 1, acc, l =>
    match l with
    | [] => [acc.reverse]
    | c :: cs =>
      if startsList sep l then acc.reverse :: splitOnFuel sep fuel [] (l.drop sep.length)
      else splitOnFuel sep fuel (c :: acc) cs

/-- Python `s.split(sep)` for a non-empty separator. -/
def pySplitOn (s sep : String) : List String :=
  (splitOnFuel sep.toList (s.toList.length + 1) [] s.toList).map (fun cs => ⟨cs⟩)

/-- The text before the first occurrence of `needle` in `s`
(Python `s.split(needle, 1)[0]`). -/
def beforeFirst (s needle : String) : String := (pySplitOn s needle).headD s

/-- The state of Python's global `random` generator: an arbitrary stream of
raw draws and the index of the next draw. -/
structure Rng where
  stream : Nat → Nat
  idx : Nat

/-- Consume one raw draw. -/
def Rng.take (r : Rng) : Nat × Rng := (r.stream r.idx, { r with idx := r.idx + 1 })

/-- Python `random.randint(a, b)`: one draw, mapped into `[a, b]`. -/
def randint (a b : Int) (r : Rng) : Int × Rng :=
  let (v, r1) := r.take
  (a + (v : Int) % (b - a + 1), r1)

/-- Python `random.random()`: one draw, mapped into `[0, 1)`. -/
def rand01 (r : Rng) : ℚ × Rng :=
  let (v, r1) := r.take
  (((v % 1000 : Nat) : ℚ) / 1000, r1)

/-- Python `random.uniform(a, b)`. -/
def uniformQ (a b : ℚ) (r : Rng) : ℚ × Rng :=
  let (v, r1) := rand01 r
  (a + (b - a) * v, r1)

/-- Run a loop body over a list of loop indices, threading the RNG and
concatenating the emitted elements in order. -/
def stateMap {α β : Type} (f : α → Rng → List β × Rng) : List α → Rng → List β × Rng
  | [], r => ([], r)
  | x :: xs, r =>
    let (out1, r1) := f x r
    let (rest, r2) := stateMap f xs r1
    (out1 ++ rest, r2)

/-- Python `range(start, stop, step)` for positive `step` (fuel-bounded; the
fuel `stop - start` dominates the iteration count whenever `1 ≤ step`). -/
def pyRangeAux (step : Int) : Nat → Int → Int → List Int
  | 0, _, _ => []
  | fuel + 1, start, stop =>
    if start < stop then start :: pyRangeAux step fuel (start + step) stop else []

/-- Python `range(start, stop, step)` for positive `step`. -/
def pyRange (start stop step : Int) : List Int :=
  pyRangeAux step (stop - start).toNat start stop

/-- Python `range(start, stop, -step)` for positive `step` (descending). -/
def pyRangeDownAux (step : Int) : Nat → Int → Int → List Int
  | 0, _, _ => []
  | fuel + 1, start, stop =>
    if stop < start then start :: pyRangeDownAux step fuel (start - step) stop else []

/-- Python `range(start, stop, -step)` for positive `step`. -/
def pyRangeDown (start stop step : Int) : List Int :=
  pyRangeDownAux step (start - stop).toNat start stop

/-- The closed scene-type enumeration. -/
inductive SceneType
  | dragon | robot | city | space | landscape
deriving DecidableEq, Repr

/-- Dragon keyword set of `create_ai_image` (test_app.py line 245). -/
def dragonKeywords : List String := ["dragon", "drake", "wyvern", "serpent"]

/-- Robot keyword set (test_app.py line 247). -/
def robotKeywords : List String := ["robot", "mech", "android", "machine"]

/-- City keyword set (test_app.py line 249). -/
def cityKeywords : List String := ["city", "urban", "metropolis", "building"]

/-- Space keyword set (test_app.py line 251). -/
def spaceKeywords : List String := ["space", "galaxy", "planet", "star"]

/-- Scene classification of `create_ai_image` (test_app.py lines 241-252):
ordered first-match over the four keyword sets on the lower-cased prompt,
defaulting to `landscape`. -/
def imageType (prompt : String) : SceneType :=
  let pl := pyLower prompt
  if dragonKeywords.any (fun k => strIn k pl) then .dragon
  else if robotKeywords.any (fun k => strIn k pl) then .robot
  else if cityKeywords.any (fun k => strIn k pl) then .city
  else if spaceKeywords.any (fun k => strIn k pl) then .space
  else .landscape

/-- An RGB(A) colour as PIL receives it (3 or 4 channels). -/
abbrev Color := List Int

/-- Palette selection of `create_ai_image` (test_app.py lines 279-296,
`main_color`): first matching branch on the lower-cased prompt wins, default
red. -/
def mainColorOf (prompt : String) : Color :=
  let pl := pyLower prompt
  if strIn "green" pl || strIn "emerald" pl then [30, 150, 30]
  else if strIn "blue" pl || strIn "sapphire" pl || strIn "ice" pl then [30, 30, 180]
  else if strIn "gold" pl || strIn "yellow" pl then [200, 180, 30]
  else if strIn "black" pl || strIn "dark" pl then [20, 20, 20]
  else if strIn "white" pl || strIn "silver" pl then [200, 200, 220]
  else if strIn "purple" pl || strIn "violet" pl || strIn "amethyst" pl then [120, 30, 160]
  else if strIn "orange" pl || strIn "amber" pl then [220, 120, 30]
  else if strIn "pink" pl || strIn "rose" pl then [220, 120, 180]
  else [180, 30, 30]

/-- Palette selection of `create_dragon_forest_image` (main.py lines 358-369,
`dragon_color`); note that "sapphire" is NOT among its keywords. -/
def dragonColorOf (prompt : String) : Color :=
  let pl := pyLower prompt
  if strIn "green" pl || strIn "emerald" pl then [30, 150, 30]
  else if strIn "blue" pl || strIn "ice" pl then [30, 30, 180]
  else if strIn "gold" pl || strIn "yellow" pl then [200, 180, 30]
  else if strIn "black" pl || strIn "dark" pl then [20, 20, 20]
  else if strIn "white" pl || strIn "silver" pl then [200, 200, 220]
  else [180, 30, 30]

/-- The constant OBJ payload returned by `generate_image_to_3d`
(main.py lines 649-665), byte for byte: note the leading empty line, the
comment line, and the trailing newline. -/
def mainObjData : String :=
"\n# Simple cube OBJ file\nv -1.0 -1.0 -1.0\nv -1.0 -1.0 1.0\nv -1.0 1.0 -1.0\nv -1.0 1.0 1.0\nv 1.0 -1.0 -1.0\nv 1.0 -1.0 1.0\nv 1.0 1.0 -1.0\nv 1.0 1.0 1.0\nf 1 3 7 5\nf 2 6 8 4\nf 1 5 6 2\nf 3 4 8 7\nf 1 2 4 3\nf 5 7 8 6\n"

/-- The constant OBJ payload written by the `/generate` endpoint
(test_app.py lines 135-149), byte for byte: a comment line, 8 vertex lines,
6 face lines, no trailing newline. -/
def testObjData : String :=
"# Simple cube OBJ file\nv -1.0 -1.0 -1.0\nv -1.0 -1.0 1.0\nv -1.0 1.0 -1.0\nv -1.0 1.0 1.0\nv 1.0 -1.0 -1.0\nv 1.0 -1.0 1.0\nv 1.0 1.0 -1.0\nv 1.0 1.0 1.0\nf 1 3 7 5\nf 2 6 8 4\nf 1 5 6 2\nf 3 4 8 7\nf 1 2 4 3\nf 5 7 8 6"

/-- `generate_image_to_3d` (main.py lines 627-669): ignores the image bytes
(modelled as a string) and returns the constant payload; nothing in its `try`
block can raise. -/
def generate_image_to_3d (imageData : String) : Option String := some mainObjData

/-- A vertex line in the shape the claim describes (`v x y z`). -/
def isVertexLine (l : String) : Bool := startsList "v ".toList l.toList

/-- A face line in the shape the claim describes (`f i1 i2 i3 i4`). -/
def isFaceLine (l : String) : Bool := startsList "f ".toList l.toList

/-- Transcription of the claim about the mesh payload layout: split into
lines, the payload is exactly 8 vertex lines followed by 6 face lines. -/
def meshSpecConform (payload : String) : Bool :=
  let L := pySplitOn payload "\n"
  L.length == 14 && (L.take 8).all isVertexLine && (L.drop 8).all isFaceLine

/-- A row of the SQLite `memory` table.  Timestamps are modelled as naturals;
the ISO-format timestamp strings of the source compare in the same order. -/
structure MemRec where
  ts : Nat
  prompt : String
  expanded : String
  imagePath : String
  modelPath : String
  tags : List String
deriving DecidableEq, Repr

/-- Descending-timestamp comparison implementing `ORDER BY timestamp DESC`. -/
def tsGe (a b : MemRec) : Prop := b.ts ≤ a.ts

instance : DecidableRel tsGe := fun a b => inferInstanceAs (Decidable (b.ts ≤ a.ts))

instance : IsTotal MemRec tsGe := ⟨fun a b => le_total b.ts a.ts⟩

instance : IsTrans MemRec tsGe := ⟨fun _ _ _ hab hbc => le_trans hbc hab⟩

/-- State of `MemoryManager` (main.py): the session dict `short_term` keyed
by `int(time.time())`, plus the SQLite table in insertion order. -/
structure MemStore where
  shortTerm : List (Nat × MemRec)
  db : List MemRec
deriving DecidableEq, Repr

/-- Python dict assignment `d[k] = v`. -/
def dictInsert (k : Nat) (v : MemRec) (d : List (Nat × MemRec)) : List (Nat × MemRec) :=
  if d.any (fun p => p.1 == k) then d.map (fun p => if p.1 == k then (k, v) else p)
  else d ++ [(k, v)]

/-- `MemoryManager.store` (main.py lines 138-179): unconditionally records the
creation in the session dict, then attempts the SQLite INSERT, catching (and
merely logging) every exception — modelled by the `dbFail` fault flag.  The
method always returns normally. -/
def mmStore (s : MemStore) (now : Nat) (prompt expanded imagePath modelPath : String)
    (tags : List String) (dbFail : Bool) : MemStore :=
  let rec0 : MemRec := ⟨now, prompt, expanded, imagePath, modelPath, tags⟩
  { shortTerm := dictInsert now rec0 s.shortTerm,
    db := if dbFail then s.db else s.db ++ [rec0] }

/-- `MemoryManager.get_recent` (main.py lines 209-232):
`SELECT * FROM memory ORDER BY timestamp DESC LIMIT ?`.  The sort is modelled
as stable (SQLite fixes no order among equal timestamps). -/
def mmGetRecent (s : MemStore) (limit : Nat) : List MemRec :=
  (s.db.insertionSort tsGe).take limit

/-- `MemoryManager.search` (main.py lines 181-207): SQL `LIKE %q%` over the
prompt, the expanded prompt and the JSON-encoded tags; SQLite LIKE is
case-insensitive on ASCII, modelled by lower-casing both sides. -/
def mmSearch (s : MemStore) (q : String) : List MemRec :=
  s.db.filter (fun r =>
    strIn (pyLower q) (pyLower r.prompt) || strIn (pyLower q) (pyLower r.expanded) ||
    strIn (pyLower q) (pyLower (jsonDumps r.tags)))

/-- A record of the ChromaDB collection; the id `str(int(time.time()))` is
modelled as the natural it prints. -/
structure ChromaRec where
  id : Nat
  ts : Nat
  prompt : String
  expanded : String
  imagePath : String
  modelPath : String
  tags : List String
deriving DecidableEq, Repr

/-- The ChromaDB collection in insertion order. -/
abbrev ChromaStore := List ChromaRec

/-- Descending-timestamp comparison for the Chroma `get_recent` sort. -/
def chromaTsGe (a b : ChromaRec) : Prop := b.ts ≤ a.ts

instance : DecidableRel chromaTsGe := fun a b => inferInstanceAs (Decidable (b.ts ≤ a.ts))

instance : IsTotal ChromaRec chromaTsGe := ⟨fun a b => le_total b.ts a.ts⟩

instance : IsTrans ChromaRec chromaTsGe := ⟨fun _ _ _ hab hbc => le_trans hbc hab⟩

/-- `ChromaMemoryManager.store` (chroma_memory.py lines 44-80):
`collection.add` with the timestamp-derived id; adding a duplicate id raises
inside the `try`, the exception is caught and the record silently dropped. -/
def chromaStore (st : ChromaStore) (now : Nat) (prompt expanded imagePath modelPath : String)
    (tags : List String) : ChromaStore :=
  if st.any (fun r => r.id == now) then st
  else st ++ [⟨now, now, prompt, expanded, imagePath, modelPath, tags⟩]

/-- `ChromaMemoryManager.get_recent` (chroma_memory.py lines 160-201): fetches
the first `limit` records of the collection (`collection.get(limit=limit)`,
modelled as insertion order), sorts THOSE by timestamp descending, and
truncates to `limit` again — the cap is applied before the sort. -/
def chromaGetRecent (st : ChromaStore) (limit : Nat) : List ChromaRec :=
  ((st.take limit).insertionSort chromaTsGe).take limit

/-- The tag computation shared by `execute` (main.py line 824) and the
`/generate` endpoint (test_app.py line 214): whitespace tokens of the prompt
longer than 3 characters, lower-cased, in order. -/
def tagsOf (prompt : String) : List String :=
  ((pySplit prompt).filter (fun w => 3 < w.length)).map pyLower

/-- Transcription of the specification's tag invariant: the whitespace-split
tokens of the prompt that are longer than 3 characters, case-folded to lower
case, in order. -/
def specTags (prompt : String) : List String :=
  ((pySplit prompt).filter (fun w => 3 < w.length)).map pyLower

/-- Which drawing call of `create_ai_image` (test_app.py) produced an
operation.  Loop indices — and for mountains the random size parameters —
are carried as annotations identifying the call instance. -/
inductive Site
  | sky (y : Nat)
  | mountain (i : Nat) (height width x : Int)
  | treeTrunk (i : Nat)
  | treeFoliage (i j : Nat)
  | sparkle (i : Nat)
  | mist (i : Nat) (ring : Int)
  | dragonHead
  | dragonSnout
  | dragonBody
  | dragonScale (i : Nat)
  | wingMembrane (right : Bool)
  | wingBone (right : Bool) (bone w : Nat)
  | dragonEye (right : Bool)
  | dragonHorn (right : Bool)
  | dragonNostril (right : Bool)
  | flameLayer (i : Nat) (scale : ℚ)
  | star (i : Nat)
  | planet
  | planetRing (size : Int)
  | building (x : Int)
  | buildingWindow (x wy wx : Int)
  | cityRoad
  | roadMark (x : Int)
  | cityLight (i : Nat)
  | robotHead
  | robotEye (right : Bool)
  | robotBody
  | robotArm (right : Bool)
  | robotLeg (right : Bool)
  | robotDetail (i : Nat)
  | captionBg
  | captionText
deriving DecidableEq, Repr

/-- The geometric payload of a drawing operation; coordinates are the exact
rationals the source computes. -/
inductive Shape
  | lineSeg (x0 y0 x1 y1 : ℚ) (c : Color) (w : Nat)
  | polygon (pts : List (ℚ × ℚ)) (fill : Color)
  | ellipseFill (x0 y0 x1 y1 : ℚ) (fill : Color)
  | ellipseOutlined (x0 y0 x1 y1 : ℚ) (outline : Color)
  | rectFill (x0 y0 x1 y1 : ℚ) (fill : Color)
  | rectOutlined (x0 y0 x1 y1 : ℚ) (fill outline : Color) (w : Nat)
  | arc (x0 y0 x1 y1 : ℚ) (degA degB : Int) (c : Color) (w : Nat)
  | text (x y : ℚ) (s : String) (c : Color)
deriving DecidableEq, Repr

/-- One drawing operation: its source site and its geometry. -/
structure Op where
  site : Site
  shape : Shape
deriving DecidableEq, Repr

/-- Sky gradient row colour (test_app.py lines 257-275): intensity
`1 - y/600*0.7`, three formulas by scene type. -/
def skyRowColor (ty : SceneType) (y : Nat) : Color :=
  let intensity : ℚ := 1 - ((y : ℚ) / 600 * 0.7)
  match ty with
  | .space => [pyInt (10 + 10 * intensity), pyInt (10 + 15 * intensity), pyInt (30 + 40 * intensity)]
  | .city => [pyInt (60 + 20 * intensity), pyInt (60 + 15 * intensity), pyInt (80 + 30 * intensity)]
  | _ => [pyInt (20 + 40 * intensity), pyInt (40 + 60 * intensity), pyInt (60 + 90 * intensity)]

/-- Stage 1: the 600 gradient rows (no random draws). -/
def skyOps (ty : SceneType) : List Op :=
  (List.range 600).map (fun y => ⟨.sky y, .lineSeg 0 (y : ℚ) 800 (y : ℚ) (skyRowColor ty y) 1⟩)

/-- One column point of a mountain outline (test_app.py lines 310-314):
`(x + j, y + int(sin(j/30)*20) + randint(-10, 10))`. -/
def mountainPointOps (psin : ℚ → ℚ) (x y : Int) (j : Int) (rr : Rng) :
    List (ℚ × ℚ) × Rng :=
  let (d, rj) := randint (-10) 10 rr
  ([(((x + j : Int) : ℚ), ((y + pyInt (psin ((j : ℚ) / 30) * 20) + d : Int) : ℚ))], rj)

/-- Stage 2 body, one mountain silhouette (test_app.py lines 302-320):
random height, width and x, then one random jitter per outline column. -/
def mountainOps (psin : ℚ → ℚ) (i : Nat) (r : Rng) : List Op × Rng :=
  let (height, r1) := randint (pyInt (600 * 0.2)) (pyInt (600 * 0.4)) r
  let (width, r2) := randint (pyInt (800 * 0.3)) (pyInt (800 * 0.6)) r1
  let (x, r3) := randint (-(pyInt ((width : ℚ) * 0.3))) (pyInt (800 * 0.9)) r2
  let y : Int := 600 - height
  let (pts, r4) := stateMap (mountainPointOps psin x y) (pyRange 0 width 1) r3
  let mpts := pts ++ [(((x + width : Int) : ℚ), (600 : ℚ)), (((x : Int) : ℚ), (600 : ℚ))]
  let col : Color := [40 + (i : Int) * 10, 50 + (i : Int) * 10, 60 + (i : Int) * 10]
  ([⟨.mountain i height width x, .polygon mpts col⟩], r4)

/-- Stage 2: the 5 mountains. -/
def mountainsStage (psin : ℚ → ℚ) (r : Rng) : List Op × Rng :=
  stateMap (mountainOps psin) (List.range 5) r

/-- Clamp a colour channel into 0..255 (`max(0, min(255, c))`). -/
def clampC (c : Int) : Int := max 0 (min 255 c)

/-- One foliage circle of a background tree (test_app.py lines 371-387). -/
def treeCircleOps (i : Nat) (x y height : Int) (width : ℚ) (folColor : Color)
    (j : Nat) (rr : Rng) : List Op × Rng :=
  let (ex, ra) := randint (-(pyInt (width * 0.4))) (pyInt (width * 0.4)) rr
  let (ey, rb) := randint (-(pyInt ((height : ℚ) * 0.25))) (pyInt ((height : ℚ) * 0.25)) ra
  let (esz, rc) := randint (pyInt (width * 0.4)) (pyInt (width * 0.7)) rb
  let (cv, rd) := randint (-15) 15 rc
  let varied : Color := folColor.map (fun c => clampC (c + cv))
  let cx : ℚ := (x : ℚ) + (ex : ℚ)
  let cy : ℚ := (y : ℚ) + (height : ℚ) * 0.3 + (ey : ℚ)
  ([⟨.treeFoliage i j, .ellipseFill (cx - (esz : ℚ) / 2) (cy - (esz : ℚ) / 2)
      (cx + (esz : ℚ) / 2) (cy + (esz : ℚ) / 2) varied⟩], rd)

/-- Stage 3 body, one background tree (test_app.py lines 324-387). -/
def treeOps (magical : Bool) (i : Nat) (r : Rng) : List Op × Rng :=
  let (x, r1) := randint 0 800 r
  let distC : ℚ := |(x : ℚ) - 400| / (800 * 0.8)
  let sizeM : ℚ := 1 - distC
  let (height, r2) := randint (pyInt (600 * 0.2 * sizeM)) (pyInt (600 * 0.4 * sizeM)) r1
  let width : ℚ := (height : ℚ) * 0.6
  let (dy, r3) := randint 0 (pyInt (600 * 0.1)) r2
  let y : Int := 600 - height - dy
  let distF : ℚ := distC * 0.7
  let trunkW : ℚ := width * 0.15
  let trunkColor : Color :=
    [pyInt (60 * (1 - distF) + 100 * distF),
     pyInt (40 * (1 - distF) + 120 * distF),
     pyInt (20 * (1 - distF) + 140 * distF)]
  let trunkOp : Op := ⟨.treeTrunk i,
    .rectFill ((x : ℚ) - trunkW / 2) ((y : ℚ) + (height : ℚ) * 0.7)
      ((x : ℚ) + trunkW / 2) ((y : ℚ) + (height : ℚ)) trunkColor⟩
  let (folColor, r4) :=
    if magical then
      let (bg, ra) := randint (-10) 30 r3
      let (gf, rb) := randint 30 80 ra
      (([30 + pyFloorDiv gf 3, 100 + bg, 30 + gf] : Color), rb)
    else
      let (sv, ra) := randint (-20) 20 r3
      let (gg, rb) := randint (-10) 30 ra
      (([30 + sv, 80 + gg, 30 + pyInt (distF * 100)] : Color), rb)
  let (folOps, r5) := stateMap (treeCircleOps i x y height width folColor) (List.range 5) r4
  (trunkOp :: folOps, r5)

/-- Stage 3: the 40 background trees. -/
def treesStage (magical : Bool) (r : Rng) : List Op × Rng :=
  stateMap (treeOps magical) (List.range 40) r

/-- Stage 4 body, one sparkle (test_app.py lines 392-398). -/
def sparkleOps (i : Nat) (r : Rng) : List Op × Rng :=
  let (x, r1) := randint 0 800 r
  let (y, r2) := randint 0 600 r1
  let (sz, r3) := randint 1 3 r2
  let (b, r4) := randint 200 255 r3
  let (b2, r5) := randint 180 230 r4
  ([⟨.sparkle i, .ellipseFill ((x - sz : Int) : ℚ) ((y - sz : Int) : ℚ)
      ((x + sz : Int) : ℚ) ((y + sz : Int) : ℚ) [b, b, b2]⟩], r5)

/-- One shrinking ring of a mist blob (test_app.py lines 408-419). -/
def mistRingOps (i : Nat) (x y rx ry mx : Int) (rr : Int) (s : Rng) : List Op × Rng :=
  let ratio : ℚ := (rr : ℚ) / (mx : ℚ)
  let opacity : Int := pyInt (100 * ratio)
  let rX : Int := pyInt ((rx : ℚ) * ratio)
  let rY : Int := pyInt ((ry : ℚ) * ratio)
  let (c1, sa) := randint 0 50 s
  let (c2, sb) := randint 0 50 sa
  let (c3, sc) := randint 0 50 sb
  ([⟨.mist i rr, .ellipseFill ((x - rX : Int) : ℚ) ((y - rY : Int) : ℚ)
      ((x + rX : Int) : ℚ) ((y + rY : Int) : ℚ) [100 + c1, 150 + c2, 150 + c3, opacity]⟩], sc)

/-- Stage 4 body, one glowing mist blob and its shrinking rings
(test_app.py lines 401-419). -/
def mistOps (i : Nat) (r : Rng) : List Op × Rng :=
  let (x, r1) := randint 0 800 r
  let (y, r2) := randint (pyInt (600 * 0.5)) (pyInt (600 * 0.9)) r1
  let (rx, r3) := randint 30 100 r2
  let (ry, r4) := randint 20 40 r3
  let mx : Int := max rx ry
  stateMap (mistRingOps i x y rx ry mx) (pyRangeDown mx 0 5) r4

/-- Stage 4: sparkles and mist, only for magical prompts
(test_app.py lines 390-419). -/
def magicStage (pl : String) (r : Rng) : List Op × Rng :=
  if strIn "magical" pl || strIn "magic" pl then
    let (sOps, r1) := stateMap sparkleOps (List.range 200) r
    let (mOps, r2) := stateMap mistOps (List.range 30) r1
    (sOps ++ mOps, r2)
  else ([], r)

/-- The float64 value of `math.pi`. -/
def piQ : ℚ := 3.141592653589793

/-- Dragon figure constants (test_app.py lines 424-436). -/
def dragonX : ℚ := 800 * 0.5

/-- Vertical centre of the dragon figure. -/
def dragonY : ℚ := 600 * 0.45

/-- Overall dragon size: `min(800, 600) * 0.45`. -/
def dragonSize : ℚ := (min 800 600 : ℚ) * 0.45

/-- Head radius parameter. -/
def headSize : ℚ := dragonSize * 0.25

/-- Elongated head length. -/
def headLength : ℚ := headSize * 1.4

/-- Head width. -/
def headWidth : ℚ := headSize * 0.9

/-- Body length. -/
def bodyLength : ℚ := dragonSize * 1.2

/-- Body width. -/
def bodyWidth : ℚ := dragonSize * 0.22

/-- Upper edge point of the dragon body polygon (test_app.py lines 461-466). -/
def bodyTopPoint (psin : ℚ → ℚ) (i : Nat) : ℚ × ℚ :=
  let t : ℚ := (i : ℚ) / 29
  (dragonX - headWidth + t * bodyLength,
   dragonY + psin (t * piQ) * bodyWidth * 0.5 + psin (t * piQ * 3) * bodyWidth * 0.1)

/-- Lower edge point of the dragon body polygon (test_app.py lines 469-474). -/
def bodyBotPoint (psin : ℚ → ℚ) (i : Nat) : ℚ × ℚ :=
  let t : ℚ := (i : ℚ) / 29
  (dragonX - headWidth + t * bodyLength,
   dragonY + psin (t * piQ) * bodyWidth * 0.5 + psin (t * piQ * 2.5) * bodyWidth * 0.15
     + bodyWidth * 0.9)

/-- The 60-point dragon body outline. -/
def bodyPoints (psin : ℚ → ℚ) : List (ℚ × ℚ) :=
  (List.range 30).map (bodyTopPoint psin) ++ (List.range 30).reverse.map (bodyBotPoint psin)

/-- `int(c * q)` channel scaling used for the derived dragon colours. -/
def scaleChan (q : ℚ) (c : Int) : Int := pyInt ((c : ℚ) * q)

/-- The three wing strut tip offsets per side (test_app.py lines 522-535):
factors applied to wing length and height for bones 1-3. -/
def boneFactors : List (ℚ × ℚ) := [(0.9, 0.9), (0.8, 0.5), (0.7, 0.2)]

/-- Flame outline width (test_app.py line 635). -/
def fireWidthQ : ℚ := headSize * 0.8

/-- Flame outline length (test_app.py line 636). -/
def fireLengthQ : ℚ := headSize * 3

/-- One upper point of the flame outline (test_app.py lines 639-644). -/
def firePointTop (i : Nat) (s : Rng) : List (ℚ × ℚ) × Rng :=
  let t : ℚ := (i : ℚ) / 9
  let variance : ℚ := (1 - t) * fireWidthQ * 0.5
  let (dy, s1) := uniformQ (-variance) variance s
  ([(dragonX + headSize + t * fireLengthQ, dragonY + dy)], s1)

/-- One lower point of the flame outline (test_app.py lines 647-652). -/
def firePointBot (i : Nat) (s : Rng) : List (ℚ × ℚ) × Rng :=
  let t : ℚ := (i : ℚ) / 9
  let variance : ℚ := (1 - t) * fireWidthQ * 0.5
  let (dy, s1) := uniformQ (-variance) variance s
  ([(dragonX + headSize + t * fireLengthQ, dragonY + fireWidthQ * 0.5 + dy)], s1)

/-- The flame outline `fire_points` (test_app.py lines 634-652): 10 upper
points then 10 lower points, one `random.uniform` draw each. -/
def firePoints (r : Rng) : List (ℚ × ℚ) × Rng :=
  let (upper, r1) := stateMap firePointTop (List.range 10) r
  let (lower, r2) := stateMap firePointBot ((List.range 10).reverse) r1
  (upper ++ lower, r2)

/-- The four flame colours, inner to outer (test_app.py lines 655-660). -/
def flameColors : List Color := [[255, 255, 200], [255, 200, 50], [255, 150, 0], [255, 50, 0]]

/-- The four nested flame layers (test_app.py lines 663-674): layer `i`
scales the outline by `1 - i*0.2` toward its vertical centre. -/
def flameLayers (pts : List (ℚ × ℚ)) : List Op :=
  let centerY : ℚ := (pts.map Prod.snd).sum / (pts.length : ℚ)
  flameColors.enum.map (fun ic =>
    let scale : ℚ := 1 - (ic.1 : ℚ) * 0.2
    ⟨.flameLayer ic.1 scale,
     .polygon (pts.map (fun p => (p.1, (p.2 - centerY) * scale + centerY))) ic.2⟩)

/-- The fire-breath block (test_app.py lines 633-674):
`if "fire" in prompt.lower() or random.random() > 0.5`.  The `or`
short-circuits, so a prompt containing "fire" consumes no draw for the
decision and always gets the flame. -/
def fireStage (pl : String) (r : Rng) : List Op × Rng :=
  if strIn "fire" pl then
    let (pts, r1) := firePoints r
    (flameLayers pts, r1)
  else
    let (v, r1) := rand01 r
    if v > 0.5 then
      let (pts, r2) := firePoints r1
      (flameLayers pts, r2)
    else ([], r1)

/-- Stage 5: the dragon subject figure (test_app.py lines 421-674) — the
source draws this block for EVERY scene type; only the fire breath at its
end consumes (at most one) random draw for its decision. -/
def dragonStage (psin : ℚ → ℚ) (mc : Color) (pl : String) (r : Rng) : List Op × Rng :=
  let wingColor : Color := mc.map (scaleChan 0.8)
  let membraneColor : Color := mc.map (scaleChan 0.6)
  let boneColor : Color := mc.map (fun c => min 255 (pyInt ((c : ℚ) * 1.2)))
  let scaleColor : Color := mc.map (fun c => pyInt (max 0 ((c : ℚ) * 0.85)))
  let headOp : Op := ⟨.dragonHead,
    .ellipseFill (dragonX - headWidth) (dragonY - headWidth)
      (dragonX + headLength) (dragonY + headWidth) mc⟩
  let snoutOp : Op := ⟨.dragonSnout, .polygon
    [(dragonX + headLength - headWidth * 0.3, dragonY - headWidth * 0.4),
     (dragonX + headLength + headWidth * 0.3, dragonY),
     (dragonX + headLength - headWidth * 0.3, dragonY + headWidth * 0.4),
     (dragonX + headLength - headWidth * 0.5, dragonY)] mc⟩
  let bodyOp : Op := ⟨.dragonBody, .polygon (bodyPoints psin) mc⟩
  let spineY : ℚ := dragonY - bodyWidth * 0.1
  let scaleOps : List Op := (List.range 10).map (fun (i : Nat) =>
    let scaleX : ℚ := dragonX + (i : ℚ) * (bodyLength * 0.1)
    let scaleSize : ℚ := bodyWidth * 0.15
    let offset : ℚ := ((i % 2 : Nat) : ℚ) * scaleSize * 0.4
    ⟨.dragonScale i, .ellipseOutlined (scaleX - scaleSize) (spineY - scaleSize + offset)
      (scaleX + scaleSize) (spineY + scaleSize + offset) scaleColor⟩)
  let wingBaseY : ℚ := dragonY - bodyWidth * 0.3
  let wingLength : ℚ := dragonSize * 0.8
  let wingHeight : ℚ := dragonSize * 0.6
  let leftBaseX : ℚ := dragonX - bodyWidth * 0.5
  let leftTip (f : ℚ × ℚ) : ℚ × ℚ := (leftBaseX - wingLength * f.1, wingBaseY - wingHeight * f.2)
  let lb1 := leftTip (boneFactors.getD 0 (0, 0))
  let lb2 := leftTip (boneFactors.getD 1 (0, 0))
  let lb3 := leftTip (boneFactors.getD 2 (0, 0))
  let leftMembraneOp : Op := ⟨.wingMembrane false, .polygon
    [(leftBaseX, wingBaseY), lb1, (lb1.1 + wingLength * 0.1, lb1.2 + wingHeight * 0.1),
     lb2, (lb2.1 + wingLength * 0.1, lb2.2 + wingHeight * 0.1),
     lb3, (lb3.1 + wingLength * 0.1, lb3.2 + wingHeight * 0.2),
     (leftBaseX - wingLength * 0.3, wingBaseY + wingHeight * 0.1)] membraneColor⟩
  let boneLines (right : Bool) (baseX : ℚ) (tips : List (ℚ × ℚ)) : List Op :=
    tips.enum.flatMap (fun bt =>
      (List.range 3).map (fun (w : Nat) =>
        let offset : ℚ := (w : ℚ) - 1
        ⟨.wingBone right bt.1 w,
         .lineSeg baseX (wingBaseY + offset) bt.2.1 (bt.2.2 + offset) boneColor 2⟩))
  let rightBaseX : ℚ := dragonX + bodyWidth * 0.5
  let rightTip (f : ℚ × ℚ) : ℚ × ℚ := (rightBaseX + wingLength * f.1, wingBaseY - wingHeight * f.2)
  let rb1 := rightTip (boneFactors.getD 0 (0, 0))
  let rb2 := rightTip (boneFactors.getD 1 (0, 0))
  let rb3 := rightTip (boneFactors.getD 2 (0, 0))
  let rightMembraneOp : Op := ⟨.wingMembrane true, .polygon
    [(rightBaseX, wingBaseY), rb1, (rb1.1 - wingLength * 0.1, rb1.2 + wingHeight * 0.1),
     rb2, (rb2.1 - wingLength * 0.1, rb2.2 + wingHeight * 0.1),
     rb3, (rb3.1 - wingLength * 0.1, rb3.2 + wingHeight * 0.2),
     (rightBaseX + wingLength * 0.3, wingBaseY + wingHeight * 0.1)] membraneColor⟩
  let eyeSize : ℚ := headSize * 0.15
  let eyeLOp : Op := ⟨.dragonEye false,
    .ellipseFill (dragonX - headSize * 0.5) (dragonY - headSize * 0.2)
      (dragonX - headSize * 0.5 + eyeSize) (dragonY - headSize * 0.2 + eyeSize) [255, 255, 0]⟩
  let eyeROp : Op := ⟨.dragonEye true,
    .ellipseFill (dragonX + headSize * 0.5 - eyeSize) (dragonY - headSize * 0.2)
      (dragonX + headSize * 0.5) (dragonY - headSize * 0.2 + eyeSize) [255, 255, 0]⟩
  let hornLOp : Op := ⟨.dragonHorn false, .polygon
    [(dragonX - headSize * 0.3, dragonY - headSize * 0.8),
     (dragonX - headSize * 0.5, dragonY - headSize * 1.3),
     (dragonX - headSize * 0.2, dragonY - headSize * 0.6)] wingColor⟩
  let hornROp : Op := ⟨.dragonHorn true, .polygon
    [(dragonX + headSize * 0.3, dragonY - headSize * 0.8),
     (dragonX + headSize * 0.5, dragonY - headSize * 1.3),
     (dragonX + headSize * 0.2, dragonY - headSize * 0.6)] wingColor⟩
  let nostrilLOp : Op := ⟨.dragonNostril false,
    .ellipseFill (dragonX - headSize * 0.2) (dragonY + headSize * 0.1)
      (dragonX - headSize * 0.1) (dragonY + headSize * 0.2) [0, 0, 0]⟩
  let nostrilROp : Op := ⟨.dragonNostril true,
    .ellipseFill (dragonX + headSize * 0.1) (dragonY + headSize * 0.1)
      (dragonX + headSize * 0.2) (dragonY + headSize * 0.2) [0, 0, 0]⟩
  let fixedOps : List Op :=
    [headOp, snoutOp, bodyOp] ++ scaleOps ++
    [leftMembraneOp] ++ boneLines false leftBaseX [lb1, lb2, lb3] ++
    [rightMembraneOp] ++ boneLines true rightBaseX [rb1, rb2, rb3] ++
    [eyeLOp, eyeROp, hornLOp, hornROp, nostrilLOp, nostrilROp]
  let (fOps, r1) := fireStage pl r
  (fixedOps ++ fOps, r1)

/-- One star of the space star field (test_app.py lines 679-685). -/
def starOps (i : Nat) (s : Rng) : List Op × Rng :=
  let (x, sa) := randint 0 800 s
  let (y, sb) := randint 0 (pyInt (600 * 0.8)) sa
  let (v, sc) := rand01 sb
  let size : ℚ := v * 2
  let (b, sd) := randint 180 255 sc
  ([⟨.star i, .ellipseFill ((x : ℚ) - size) ((y : ℚ) - size)
      ((x : ℚ) + size) ((y : ℚ) + size) [b, b, b]⟩], sd)

/-- Space extras (test_app.py lines 677-707): star field, planet, optional
rings. -/
def spaceExtras (pl : String) (mc : Color) (r : Rng) : List Op × Rng :=
  let (sOps, r1) := stateMap starOps (List.range 500) r
  let (px, r2) := randint (pyInt (800 * 0.2)) (pyInt (800 * 0.8)) r1
  let (py, r3) := randint (pyInt (600 * 0.2)) (pyInt (600 * 0.5)) r2
  let (ps, r4) := randint 50 120 r3
  let planetOp : Op := ⟨.planet, .ellipseFill ((px - ps : Int) : ℚ) ((py - ps : Int) : ℚ)
    ((px + ps : Int) : ℚ) ((py + ps : Int) : ℚ) mc⟩
  let ringOps : List Op :=
    if strIn "ring" pl || strIn "saturn" pl then
      (pyRange (ps + 10) (ps + 40) 5).map (fun rs =>
        let ringColor : Color := mc.map (fun c => pyFloorDiv c 2 + 50)
        ⟨.planetRing rs, .arc ((px - rs : Int) : ℚ) ((py - pyFloorDiv rs 3 : Int) : ℚ)
          ((px + rs : Int) : ℚ) ((py + pyFloorDiv rs 3 : Int) : ℚ) 0 360 ringColor 3⟩)
    else []
  (sOps ++ [planetOp] ++ ringOps, r4)

/-- One night window cell (test_app.py lines 731-736): a random draw decides
whether the window is lit. -/
def windowCellOps (x wy wx : Int) (u : Rng) : List Op × Rng :=
  let (v, ua) := rand01 u
  (if v > 0.3 then
    [⟨.buildingWindow x wy wx, .rectFill (wx : ℚ) (wy : ℚ)
        ((wx + 5 : Int) : ℚ) ((wy + 5 : Int) : ℚ) [200, 200, 100]⟩]
   else [], ua)

/-- One row of the window grid of a building (test_app.py lines 731-736). -/
def windowRowOps (x bw : Int) (wy : Int) (t : Rng) : List Op × Rng :=
  stateMap (windowCellOps x wy) (pyRange (x + 5) (x + bw - 5) 10) t

/-- One building of the skyline (test_app.py lines 715-736), with its window
grid when the prompt mentions "night". -/
def cityBuildingOps (pl : String) (baseY x : Int) (s : Rng) : List Op × Rng :=
  let (bw, sa) := randint 20 60 s
  let (bh, sb) := randint 50 250 sa
  let (c1, sc) := randint 20 50 sb
  let (c2, sd) := randint 20 50 sc
  let (c3, se) := randint 30 60 sd
  let bOp : Op := ⟨.building x, .rectOutlined (x : ℚ) ((baseY - bh : Int) : ℚ)
    ((x + bw : Int) : ℚ) (baseY : ℚ) [c1, c2, c3] [60, 60, 70] 1⟩
  let (wOps, sf) :=
    if strIn "night" pl then
      stateMap (windowRowOps x bw) (pyRange (baseY - bh + 10) (baseY - 10) 20) se
    else ([], se)
  (bOp :: wOps, sf)

/-- One foreground light/car (test_app.py lines 747-756). -/
def cityLightOps (roadY : Int) (i : Nat) (s : Rng) : List Op × Rng :=
  let (lx, sa) := randint 0 800 s
  let (ly, sb) := randint (roadY + 10) (600 - 10) sa
  let (ls, sc) := randint 2 6 sb
  let (v, sd) := rand01 sc
  let lightColor : Color := if v > 0.5 then [255, 200, 0] else [255, 0, 0]
  ([⟨.cityLight i, .ellipseFill ((lx - ls : Int) : ℚ) ((ly - ls : Int) : ℚ)
      ((lx + ls : Int) : ℚ) ((ly + ls : Int) : ℚ) lightColor⟩], sd)

/-- City extras (test_app.py lines 709-756): skyline, optional night windows,
road, lane markings, lights. -/
def cityExtras (pl : String) (r : Rng) : List Op × Rng :=
  let baseY : Int := pyInt (600 * 0.7)
  let (step, r1) := randint 10 40 r
  let (bOps, r2) := stateMap (cityBuildingOps pl baseY) (pyRange 0 800 step) r1
  let roadY : Int := pyInt (600 * 0.7)
  let roadOp : Op := ⟨.cityRoad, .rectFill 0 (roadY : ℚ) 800 600 [40, 40, 40]⟩
  let lineY : Int := roadY + pyFloorDiv (600 - roadY) 2
  let markOps : List Op := (pyRange 0 800 40).map (fun x =>
    ⟨.roadMark x, .rectFill (x : ℚ) (lineY : ℚ) ((x + 20 : Int) : ℚ) ((lineY + 5 : Int) : ℚ)
      [200, 200, 200]⟩)
  let (lightOps, r3) := stateMap (cityLightOps roadY) (List.range 10) r2
  (bOps ++ [roadOp] ++ markOps ++ lightOps, r3)

/-- One random tech detail of the robot (test_app.py lines 809-822). -/
def robotDetailOps (robotX robotY robotW robotH hs : Int) (i : Nat) (s : Rng) :
    List Op × Rng :=
  let (dx, sa) := randint (robotX - pyFloorDiv robotW 2 + 10) (robotX + pyFloorDiv robotW 2 - 10) s
  let (dy, sb) := randint (robotY - pyFloorDiv robotH 2 + hs + 10) (robotY + pyFloorDiv robotH 2 - 10) sa
  let (ds, sc) := randint 5 15 sb
  let (v1, sd) := rand01 sc
  let detailColor : Color := if v1 > 0.5 then [0, 200, 255] else [255, 50, 50]
  let (v2, se) := rand01 sd
  (if v2 > 0.5 then
    [⟨.robotDetail i, .rectFill ((dx - ds : Int) : ℚ) ((dy - pyFloorDiv ds 2 : Int) : ℚ)
        ((dx + ds : Int) : ℚ) ((dy + pyFloorDiv ds 2 : Int) : ℚ) detailColor⟩]
   else
    [⟨.robotDetail i, .ellipseFill ((dx - ds : Int) : ℚ) ((dy - ds : Int) : ℚ)
        ((dx + ds : Int) : ℚ) ((dy + ds : Int) : ℚ) detailColor⟩], se)

/-- Robot extras (test_app.py lines 758-822): blocky figure and random tech
details. -/
def robotExtras (mc : Color) (r : Rng) : List Op × Rng :=
  let robotX : Int := pyFloorDiv 800 2
  let robotY : Int := pyFloorDiv 600 2
  let robotW : Int := pyInt (800 * 0.3)
  let robotH : Int := pyInt (600 * 0.5)
  let hs : Int := pyFloorDiv robotW 2
  let headOp : Op := ⟨.robotHead, .rectOutlined ((robotX - hs : Int) : ℚ)
    ((robotY - pyFloorDiv robotH 2 - hs : Int) : ℚ) ((robotX + hs : Int) : ℚ)
    ((robotY - pyFloorDiv robotH 2 + hs : Int) : ℚ) mc [50, 50, 50] 3⟩
  let es : Int := pyFloorDiv hs 4
  let eyeL : Op := ⟨.robotEye false, .rectFill
    ((robotX - pyFloorDiv hs 2 - pyFloorDiv es 2 : Int) : ℚ)
    ((robotY - pyFloorDiv robotH 2 - es : Int) : ℚ)
    ((robotX - pyFloorDiv hs 2 + pyFloorDiv es 2 : Int) : ℚ)
    ((robotY - pyFloorDiv robotH 2 : Int) : ℚ) [0, 200, 255]⟩
  let eyeR : Op := ⟨.robotEye true, .rectFill
    ((robotX + pyFloorDiv hs 2 - pyFloorDiv es 2 : Int) : ℚ)
    ((robotY - pyFloorDiv robotH 2 - es : Int) : ℚ)
    ((robotX + pyFloorDiv hs 2 + pyFloorDiv es 2 : Int) : ℚ)
    ((robotY - pyFloorDiv robotH 2 : Int) : ℚ) [0, 200, 255]⟩
  let bodyColor : Color := mc.map (fun c => pyFloorDiv c 2)
  let bodyOp : Op := ⟨.robotBody, .rectOutlined ((robotX - pyFloorDiv robotW 2 : Int) : ℚ)
    ((robotY - pyFloorDiv robotH 2 + hs : Int) : ℚ) ((robotX + pyFloorDiv robotW 2 : Int) : ℚ)
    ((robotY + pyFloorDiv robotH 2 : Int) : ℚ) bodyColor [50, 50, 50] 3⟩
  let aw : Int := pyFloorDiv robotW 6
  let armL : Op := ⟨.robotArm false, .rectFill
    ((robotX - pyFloorDiv robotW 2 - aw : Int) : ℚ) ((robotY - pyFloorDiv robotH 4 : Int) : ℚ)
    ((robotX - pyFloorDiv robotW 2 : Int) : ℚ) ((robotY + pyFloorDiv robotH 4 : Int) : ℚ)
    [80, 80, 80]⟩
  let armR : Op := ⟨.robotArm true, .rectFill
    ((robotX + pyFloorDiv robotW 2 : Int) : ℚ) ((robotY - pyFloorDiv robotH 4 : Int) : ℚ)
    ((robotX + pyFloorDiv robotW 2 + aw : Int) : ℚ) ((robotY + pyFloorDiv robotH 4 : Int) : ℚ)
    [80, 80, 80]⟩
  let legL : Op := ⟨.robotLeg false, .rectFill
    ((robotX - pyFloorDiv robotW 3 : Int) : ℚ) ((robotY + pyFloorDiv robotH 2 : Int) : ℚ)
    ((robotX - pyFloorDiv robotW 6 : Int) : ℚ)
    ((robotY + pyFloorDiv robotH 2 + pyFloorDiv robotH 3 : Int) : ℚ) [80, 80, 80]⟩
  let legR : Op := ⟨.robotLeg true, .rectFill
    ((robotX + pyFloorDiv robotW 6 : Int) : ℚ) ((robotY + pyFloorDiv robotH 2 : Int) : ℚ)
    ((robotX + pyFloorDiv robotW 3 : Int) : ℚ)
    ((robotY + pyFloorDiv robotH 2 + pyFloorDiv robotH 3 : Int) : ℚ) [80, 80, 80]⟩
  let (detailOps, r1) := stateMap (robotDetailOps robotX robotY robotW robotH hs)
    (List.range 5) r
  ([headOp, eyeL, eyeR, bodyOp, armL, armR, legL, legR] ++ detailOps, r1)

/-- The scene-type-specific extra elements (test_app.py lines 676-822); the
`"dragon" not in prompt_lower` guards of the source are kept even though the
classification already implies them. -/
def extrasStage (ty : SceneType) (pl : String) (mc : Color) (r : Rng) : List Op × Rng :=
  match ty with
  | .space => if strIn "dragon" pl then ([], r) else spaceExtras pl mc r
  | .city => if strIn "dragon" pl then ([], r) else cityExtras pl r
  | .robot => if strIn "dragon" pl then ([], r) else robotExtras mc r
  | _ => ([], r)

/-- Stage 6: caption bar and prompt text (test_app.py lines 825-835). -/
def captionOps (prompt : String) : List Op :=
  [⟨.captionBg, .rectFill 0 (600 - 50 : ℚ) 800 600 [0, 0, 0]⟩,
   ⟨.captionText, .text 20 (600 - 40 : ℚ) ("Prompt: " ++ prompt) [255, 255, 255]⟩]

/-- The procedural renderer `create_ai_image` (test_app.py lines 234-837):
the full ordered sequence of drawing operations painted onto the 800x600
canvas, with the global RNG threaded explicitly.  `psin` abstracts
`math.sin`. -/
def create_ai_image (psin : ℚ → ℚ) (prompt : String) (r : Rng) : List Op × Rng :=
  let pl := pyLower prompt
  let ty := imageType prompt
  let mc := mainColorOf prompt
  let sky := skyOps ty
  let (mOps, r1) := mountainsStage psin r
  let (tOps, r2) := treesStage (strIn "magical" pl) r1
  let (gOps, r3) := magicStage pl r2
  let (dOps, r4) := dragonStage psin mc pl r3
  let (eOps, r5) := extrasStage ty pl mc r4
  (sky ++ mOps ++ tOps ++ gOps ++ dOps ++ eOps ++ captionOps prompt, r5)

/-- The operation sequence of one render. -/
def renderTrace (psin : ℚ → ℚ) (prompt : String) (r : Rng) : List Op :=
  (create_ai_image psin prompt r).1

/-- The global RNG state after one render. -/
def renderFinal (psin : ℚ → ℚ) (prompt : String) (r : Rng) : Rng :=
  (create_ai_image psin prompt r).2

/-- An arbitrary concrete stand-in for `math.sin`, used only to evaluate
claims on concrete inputs; no settled claim depends on its values. -/
def sin0 : ℚ → ℚ := fun _ => 0

/-- A concrete RNG stream: raw draw 0 first, then 1 forever. -/
def rng0 : Rng := ⟨fun n => if n = 0 then 0 else 1, 0⟩

/-- The height annotation of a mountain operation. -/
def mountainHeightOf (o : Op) : Option Int :=
  match o.site with | .mountain _ h _ _ => some h | _ => none

/-- The height annotation of the first mountain operation of a trace. -/
def firstMountainHeight (t : List Op) : Option Int := t.findSome? mountainHeightOf

/-- The layer index, scale factor and colour of a flame-layer polygon. -/
def flameInfoOf (o : Op) : Option (Nat × ℚ × Color) :=
  match o.site, o.shape with
  | .flameLayer i sc, .polygon _ c => some (i, sc, c)
  | _, _ => none

/-- All flame-layer operations of a trace, projected to index, scale and
colour. -/
def flameInfo (t : List Op) : List (Nat × ℚ × Color) := t.filterMap flameInfoOf

/-- The pipeline stage a drawing site belongs to. -/
inductive StageTag
  | skyT | mountainT | treeT | magicT | dragonFigT | flameT | spaceFxT | cityFxT | robotFxT
  | captionT
deriving DecidableEq, Repr

/-- Classify a drawing site by its pipeline stage. -/
def siteTag : Site → StageTag
  | .sky _ => .skyT
  | .mountain .. => .mountainT
  | .treeTrunk _ => .treeT
  | .treeFoliage .. => .treeT
  | .sparkle _ => .magicT
  | .mist .. => .magicT
  | .dragonHead => .dragonFigT
  | .dragonSnout => .dragonFigT
  | .dragonBody => .dragonFigT
  | .dragonScale _ => .dragonFigT
  | .wingMembrane _ => .dragonFigT
  | .wingBone .. => .dragonFigT
  | .dragonEye _ => .dragonFigT
  | .dragonHorn _ => .dragonFigT
  | .dragonNostril _ => .dragonFigT
  | .flameLayer .. => .flameT
  | .star _ => .spaceFxT
  | .planet => .spaceFxT
  | .planetRing _ => .spaceFxT
  | .building _ => .cityFxT
  | .buildingWindow .. => .cityFxT
  | .cityRoad => .cityFxT
  | .roadMark _ => .cityFxT
  | .cityLight _ => .cityFxT
  | .robotHead => .robotFxT
  | .robotEye _ => .robotFxT
  | .robotBody => .robotFxT
  | .robotArm _ => .robotFxT
  | .robotLeg _ => .robotFxT
  | .robotDetail _ => .robotFxT
  | .captionBg => .captionT
  | .captionText => .captionT

/-- The scene-type-specific extra stages (stars/planet, cityscape, robot). -/
def isSceneExtraTag (t : StageTag) : Bool :=
  match t with
  | .spaceFxT => true
  | .cityFxT => true
  | .robotFxT => true
  | _ => false

/-- The non-comment, non-empty lines of a mesh payload. -/
def meshContentLines (payload : String) : List String :=
  (pySplitOn payload "\n").filter (fun l => !l.toList.isEmpty && !startsList ['#'] l.toList)

/-- The generic enhancement suffix of `LocalLLM.generate` (main.py line 123). -/
def llmSuffix : String :=
  ", with highly detailed textures, dramatic lighting, cinematic composition, photo-realistic quality"

/-- Enhancement text for "dragon" (main.py line 93). -/
def enhDragon : String :=
  "a majestic dragon with intricate scales, powerful wings outspread, standing on a rocky cliff overlooking a vast landscape, with dramatic sunset lighting creating golden highlights on its scales"

/-- Enhancement text for "robot" (main.py line 94). -/
def enhRobot : String :=
  "a sleek, futuristic robot with glowing LED details, metallic surface reflecting ambient light, detailed mechanical joints and panels, standing in a high-tech laboratory environment with subtle blue lighting"

/-- Enhancement text for "city" (main.py line 95). -/
def enhCity : String :=
  "a sprawling cyberpunk cityscape with neon signs illuminating rain-slicked streets, towering skyscrapers with holographic advertisements, flying vehicles navigating between buildings, and crowds of people under a night sky filled with industrial haze"

/-- Enhancement text for "forest" and "magical forest" (main.py lines 96, 99). -/
def enhForest : String :=
  "an enchanted forest with ancient trees covered in luminescent moss, shaft of golden sunlight filtering through the dense canopy, magical creatures hiding among colorful mushrooms, and a misty atmosphere creating depth and mystery"

/-- Enhancement text for "dragon forest" and "dragon in forest"
(main.py lines 97, 98). -/
def enhDragonForest : String :=
  "a majestic dragon with emerald scales and golden eyes in an enchanted forest, surrounded by ancient trees with glowing moss, magical fireflies illuminating the scene, and a misty atmosphere creating depth with shafts of moonlight breaking through the dense canopy"

/-- The ordered `enhancements` table of `LocalLLM.generate`
(main.py lines 92-100). -/
def enhancements : List (String × String) :=
  [("dragon", enhDragon), ("robot", enhRobot), ("city", enhCity), ("forest", enhForest),
   ("dragon forest", enhDragonForest), ("dragon in forest", enhDragonForest),
   ("magical forest", enhForest)]

/-- The multi-word combinations checked first (main.py line 103). -/
def combinedKeywords : List String := ["dragon forest", "dragon in forest", "magical forest"]

/-- `LocalLLM.generate` (main.py lines 78-126): combination keywords first,
then single keywords in table order (skipping the combinations), then the
generic enhancement when nothing changed. -/
def llmGenerate (prompt : String) : String :=
  let pl := pyLower prompt
  match combinedKeywords.find? (fun c => strIn (pyLower c) pl) with
  | some combo =>
    let expanded := (enhancements.lookup combo).getD ""
    let prompt1 := combo ++ ": " ++ prompt
    if expanded = prompt1 then prompt1 ++ llmSuffix else expanded
  | none =>
    match enhancements.find? (fun ke =>
        strIn (pyLower ke.1) pl && !(combinedKeywords.contains ke.1)) with
    | some ke =>
      let expanded := ke.2
      let prompt1 := ke.1 ++ ": " ++ prompt
      if expanded = prompt1 then prompt1 ++ llmSuffix else expanded
    | none => prompt ++ llmSuffix

/-- Reference phrases of `extract_memory_references` (main.py line 288). -/
def referenceKeywords : List String :=
  ["like the one", "similar to", "same as", "like I created", "like the", "like my"]

/-- Stop words excluded from the potential tags (main.py lines 299-300). -/
def refStopWords : List String :=
  ["like", "the", "one", "similar", "same", "created", "make", "generate"]

/-- Python `max(list, key=timestamp)`: first maximal element, `none` on an
empty list. -/
def pyMaxByTs : List MemRec → Option MemRec
  | [] => none
  | a :: rest => some (rest.foldl (fun best x => if best.ts < x.ts then x else best) a)

/-- `extract_memory_references` (main.py lines 274-321): detect a reference
phrase, search the store for the long words of the prompt, and return the
(lower-cased) text before the first reference phrase plus the most recent
match; otherwise the prompt unchanged. -/
def extractMemoryReferences (prompt : String) (mem : MemStore) : String × Option MemRec :=
  let lp := pyLower prompt
  if referenceKeywords.any (fun k => strIn k lp) then
    let words := pySplit prompt
    let potentialTags := words.filter (fun w =>
      3 < w.length && !(refStopWords.contains (pyLower w)))
    let found := (potentialTags.map (fun t => mmSearch mem t)).flatten
    match pyMaxByTs found with
    | some best =>
      match referenceKeywords.find? (fun k => strIn k lp) with
      | some k => (pyStrip (beforeFirst lp k), some best)
      | none => (prompt, none)
    | none => (prompt, none)
  else (prompt, none)

/-- Image path produced by `save_results` for timestamp `t` (the shared
output directory abbreviated to "output"). -/
def imagePathOf (t : Nat) : String := "output/image_" ++ toString t ++ ".png"

/-- Model path produced by `save_results` for timestamp `t`. -/
def modelPathOf (t : Nat) : String := "output/model_" ++ toString t ++ ".obj"

/-- Viewer path produced by `save_results` for timestamp `t`. -/
def viewPathOf (t : Nat) : String := "output/view_" ++ toString t ++ ".html"

/-- `generate_text_to_image` (main.py lines 323-625): the in-process
procedural painting; its `try` body is total, so the call always yields image
bytes (abstracted here by the expanded prompt that generated them). -/
def generate_text_to_imageM (expandedPrompt : String) : Option String := some expandedPrompt

/-- The dict returned by `execute`: either the message-only error shape or
the success envelope with the artifact file names. -/
inductive ExecResult
  | messageOnly (message : String)
  | success (message : String) (image model viewer : String) (outputDir : String)
deriving DecidableEq, Repr

/-- A request payload: a string-valued JSON object, the shape reaching
`execute` through app.py's endpoint. -/
abbrev ReqData := List (String × String)

/-- Python `str()` of a string-valued dict, used by `execute`'s duck-typed
fallback when the mapping has no "prompt" key. -/
def pyStrDict (d : ReqData) : String :=
  "\x7b" ++
    String.intercalate ", " (d.map (fun kv => "\x27" ++ kv.1 ++ "\x27: \x27" ++ kv.2 ++ "\x27"))
    ++ "\x7d"

/-- The prompt `execute` extracts from a dict request (main.py lines 761-770):
the "prompt" value if the key exists, otherwise `str(request_data)`. -/
def reqPrompt (d : ReqData) : String :=
  match d.lookup "prompt" with
  | some v => v
  | none => pyStrDict d

/-- The success message `execute` assembles (main.py lines 834-840). -/
def execMessage (userPrompt expandedPrompt : String) (now now2 : Nat) : String :=
  "Created: " ++ userPrompt ++ "\nExpanded: " ++ expandedPrompt ++
    "\nImage saved to: " ++ imagePathOf now ++ "\n3D model saved to: " ++ modelPathOf now ++
    "\nView results at: output/view_" ++ toString now2 ++ ".html\n"

/-- `execute` (main.py lines 745-851): the full request pipeline.  `now`
models the clock reads backing `save_results` and the memory store, `now2`
the separate `time.time()` read used for the viewer filename in the response;
`dbFail` injects a failure of the SQLite INSERT inside `MemoryManager.store`.
Besides the response, the updated memory state and the list of files written
are returned. -/
def executeM (data : ReqData) (mem : MemStore) (now now2 : Nat) (dbFail : Bool) :
    ExecResult × MemStore × List String :=
  let userPrompt := reqPrompt data
  if userPrompt = "" then
    (.messageOnly "Please provide a prompt to generate content.", mem, [])
  else
    let (cleanPrompt, refMem) := extractMemoryReferences userPrompt mem
    let expandedPrompt :=
      match refMem with
      | some m => llmGenerate (cleanPrompt ++ ", similar to " ++ m.expanded)
      | none => llmGenerate cleanPrompt
    match generate_text_to_imageM expandedPrompt with
    | none => (.messageOnly "Failed to generate image from prompt.", mem, [])
    | some imageData =>
      match generate_image_to_3d imageData with
      | none => (.messageOnly "Failed to generate 3D model from image.", mem, [])
      | some _modelData =>
        let imagePath := imagePathOf now
        let modelPath := modelPathOf now
        let viewPath := viewPathOf now
        let tags := tagsOf userPrompt
        let mem1 := mmStore mem now userPrompt expandedPrompt imagePath modelPath tags dbFail
        let htmlFilename := "view_" ++ toString now2 ++ ".html"
        (.success (execMessage userPrompt expandedPrompt now now2)
          ("image_" ++ toString now ++ ".png")
          ("model_" ++ toString now ++ ".obj") htmlFilename "output",
         mem1, [imagePath, modelPath, viewPath])

/-- The HTTP-level responses of app.py's `/generate` endpoint. -/
inductive HttpResp
  | badRequest (error : String)
  | ok (result : ExecResult)
deriving DecidableEq, Repr

/-- The `/generate` endpoint (app.py lines 23-34): a missing/empty body or a
missing "prompt" key is rejected with HTTP 400 before `execute` runs; every
dict `execute` returns — including its message-only error shape — is wrapped
in a 200 response. -/
def generateEndpoint (body : Option ReqData) (mem : MemStore) (now now2 : Nat) (dbFail : Bool) :
    HttpResp × MemStore × List String :=
  match body with
  | none => (.badRequest "Missing \x27prompt\x27 in request", mem, [])
  | some kv =>
    if kv.isEmpty || (kv.lookup "prompt").isNone then
      (.badRequest "Missing \x27prompt\x27 in request", mem, [])
    else
      let (res, mem1, files) := executeM kv mem now now2 dbFail
      (.ok res, mem1, files)

/-- Whether an `execute` result is the success envelope. -/
def isSuccessEnvelope : ExecResult → Bool
  | .success .. => true
  | .messageOnly _ => false

/-- Whether an HTTP response is a 200 wrapping of an `execute` result. -/
def isOkResp : HttpResp → Bool
  | .ok _ => true
  | .badRequest _ => false

/-- The expanded prompt `execute` passes to the image generator for a given
request and memory state (main.py lines 783-800), named so the success-path
equation of `executeM` can be stated. -/
def expandedOf (data : ReqData) (mem : MemStore) : String :=
  let (cleanPrompt, refMem) := extractMemoryReferences (reqPrompt data) mem
  match refMem with
  | some m => llmGenerate (cleanPrompt ++ ", similar to " ++ m.expanded)
  | none => llmGenerate cleanPrompt

/-- The RNG after a computation step descends from the RNG before it: same
stream, index not decreased. -/
def RngEvolves (a b : Rng) : Prop := b.stream = a.stream ∧ a.idx ≤ b.idx

/-! ### RNG bookkeeping lemmas

Every drawing function threads the global RNG: the stream is never replaced
and the index never decreases.  These lemmas let the later theorems reason
about a render without evaluating it. -/

/-- Reflexivity of RNG evolution. -/
theorem RngEvolves.refl (r : Rng) : RngEvolves r r := ⟨rfl, Nat.le_refl _⟩

/-- Transitivity of RNG evolution. -/
theorem RngEvolves.trans {a b c : Rng} (h1 : RngEvolves a b) (h2 : RngEvolves b c) :
    RngEvolves a c := ⟨h2.1.trans h1.1, h1.2.trans h2.2⟩

/-- One consumed draw evolves the RNG. -/
theorem step_evolves (r : Rng) : RngEvolves r ⟨r.stream, r.idx + 1⟩ := ⟨rfl, Nat.le_succ _⟩

/-- Any number of consumed draws evolves the RNG. -/
theorem steps_evolves (r : Rng) (k : Nat) : RngEvolves r ⟨r.stream, r.idx + k⟩ :=
  ⟨rfl, Nat.le_add_right _ _⟩

/-- A `randint` call evolves the RNG. -/
theorem randint_evolves (a b : Int) (r : Rng) : RngEvolves r (randint a b r).2 :=
  step_evolves r

/-- A loop whose body evolves the RNG evolves the RNG. -/
theorem stateMap_evolves {α β : Type} {f : α → Rng → List β × Rng}
    (hf : ∀ x r, RngEvolves r (f x r).2) :
    ∀ (xs : List α) (r : Rng), RngEvolves r (stateMap f xs r).2
  | [], r => RngEvolves.refl r
  | x :: xs, r => (hf x r).trans (stateMap_evolves hf xs (f x r).2)

/-- Everything a loop emits satisfies what every body emission satisfies. -/
theorem stateMap_sites {α β : Type} {P : β → Prop} {f : α → Rng → List β × Rng}
    (hf : ∀ x r o, o ∈ (f x r).1 → P o) :
    ∀ (xs : List α) (r : Rng) (o : β), o ∈ (stateMap f xs r).1 → P o
  | [], _, o, h => absurd h (List.not_mem_nil o)
  | x :: xs, r, o, h => by
    have h2 : o ∈ (f x r).1 ++ (stateMap f xs (f x r).2).1 := h
    rcases List.mem_append.mp h2 with h3 | h3
    · exact hf x r o h3
    · exact stateMap_sites hf xs (f x r).2 o h3

/-- Unfolding a loop once, state view. -/
theorem stateMap_cons_snd {α β : Type} (f : α → Rng → List β × Rng) (x : α) (xs : List α)
    (r : Rng) : (stateMap f (x :: xs) r).2 = (stateMap f xs (f x r).2).2 := rfl

/-- A mountain outline point consumes one draw. -/
theorem mountainPointOps_evolves (psin : ℚ → ℚ) (x y : Int) (j : Int) (rr : Rng) :
    RngEvolves rr (mountainPointOps psin x y j rr).2 := step_evolves rr

/-- One mountain advances the RNG. -/
theorem mountainOps_evolves (psin : ℚ → ℚ) (i : Nat) (r : Rng) :
    RngEvolves r (mountainOps psin i r).2 := by
  unfold mountainOps
  simp only [randint, Rng.take]
  exact (steps_evolves r 3).trans
    (stateMap_evolves (mountainPointOps_evolves psin _ _) _ _)

/-- One mountain consumes at least its three size draws. -/
theorem mountainOps_idx (psin : ℚ → ℚ) (i : Nat) (r : Rng) :
    r.idx + 3 ≤ (mountainOps psin i r).2.idx := by
  unfold mountainOps
  simp only [randint, Rng.take]
  refine le_trans ?_ ((stateMap_evolves (mountainPointOps_evolves psin _ _) _ _).2)
  exact Nat.le_refl _

/-- The mountain stage advances the RNG. -/
theorem mountainsStage_evolves (psin : ℚ → ℚ) (r : Rng) :
    RngEvolves r (mountainsStage psin r).2 :=
  stateMap_evolves (mountainOps_evolves psin) _ _

/-- The mountain stage consumes at least one draw. -/
theorem mountainsStage_idx (psin : ℚ → ℚ) (r : Rng) :
    r.idx + 1 ≤ (mountainsStage psin r).2.idx := by
  unfold mountainsStage
  rw [show List.range 5 = 0 :: [1, 2, 3, 4] from rfl]
  rw [stateMap_cons_snd]
  have h0 : r.idx + 3 ≤ (mountainOps psin 0 r).2.idx := mountainOps_idx psin 0 r
  have h1 := (stateMap_evolves (mountainOps_evolves psin) [1, 2, 3, 4] (mountainOps psin 0 r).2).2
  omega

/-- A foliage circle consumes four draws. -/
theorem treeCircleOps_evolves (i : Nat) (x y height : Int) (width : ℚ) (folColor : Color)
    (j : Nat) (rr : Rng) : RngEvolves rr (treeCircleOps i x y height width folColor j rr).2 :=
  steps_evolves rr 4

/-- One tree advances the RNG. -/
theorem treeOps_evolves (magical : Bool) (i : Nat) (r : Rng) :
    RngEvolves r (treeOps magical i r).2 := by
  cases magical <;>
  · unfold treeOps
    simp only [randint, Rng.take]
    exact (steps_evolves r 5).trans
      (stateMap_evolves (treeCircleOps_evolves i _ _ _ _ _) _ _)

/-- The tree stage advances the RNG. -/
theorem treesStage_evolves (magical : Bool) (r : Rng) :
    RngEvolves r (treesStage magical r).2 :=
  stateMap_evolves (treeOps_evolves magical) _ _

/-- One sparkle consumes five draws. -/
theorem sparkleOps_evolves (i : Nat) (r : Rng) : RngEvolves r (sparkleOps i r).2 :=
  steps_evolves r 5

/-- One mist ring consumes three draws. -/
theorem mistRingOps_evolves (i : Nat) (x y rx ry mx : Int) (rr : Int) (s : Rng) :
    RngEvolves s (mistRingOps i x y rx ry mx rr s).2 := steps_evolves s 3

/-- One mist blob advances the RNG. -/
theorem mistOps_evolves (i : Nat) (r : Rng) : RngEvolves r (mistOps i r).2 := by
  unfold mistOps
  simp only [randint, Rng.take]
  exact (steps_evolves r 4).trans
    (stateMap_evolves (mistRingOps_evolves i _ _ _ _ _) _ _)

/-- The magical stage advances the RNG. -/
theorem magicStage_evolves (pl : String) (r : Rng) : RngEvolves r (magicStage pl r).2 := by
  unfold magicStage
  split
  · generalize List.range 200 = L1
    generalize List.range 30 = L2
    exact (stateMap_evolves sparkleOps_evolves _ _).trans (stateMap_evolves mistOps_evolves _ _)
  · exact RngEvolves.refl r

/-- An upper flame point consumes one draw. -/
theorem firePointTop_evolves (i : Nat) (s : Rng) : RngEvolves s (firePointTop i s).2 :=
  step_evolves s

/-- A lower flame point consumes one draw. -/
theorem firePointBot_evolves (i : Nat) (s : Rng) : RngEvolves s (firePointBot i s).2 :=
  step_evolves s

/-- The flame outline advances the RNG. -/
theorem firePoints_evolves (r : Rng) : RngEvolves r (firePoints r).2 := by
  unfold firePoints
  generalize List.range 10 = L
  exact (stateMap_evolves firePointTop_evolves _ _).trans
    (stateMap_evolves firePointBot_evolves _ _)

/-- The fire-breath block advances the RNG. -/
theorem fireStage_evolves (pl : String) (r : Rng) : RngEvolves r (fireStage pl r).2 := by
  unfold fireStage
  split
  · exact firePoints_evolves r
  · simp only [rand01, Rng.take]
    split
    · exact (step_evolves r).trans (firePoints_evolves _)
    · exact step_evolves r

/-- The dragon figure advances the RNG. -/
theorem dragonStage_evolves (psin : ℚ → ℚ) (mc : Color) (pl : String) (r : Rng) :
    RngEvolves r (dragonStage psin mc pl r).2 :=
  fireStage_evolves pl r

/-- One star consumes four draws. -/
theorem starOps_evolves (i : Nat) (s : Rng) : RngEvolves s (starOps i s).2 :=
  steps_evolves s 4

/-- The space extras advance the RNG. -/
theorem spaceExtras_evolves (pl : String) (mc : Color) (r : Rng) :
    RngEvolves r (spaceExtras pl mc r).2 := by
  unfold spaceExtras
  generalize hS : stateMap starOps (List.range 500) r = S
  obtain ⟨sOps, r1⟩ := S
  dsimp only
  generalize hP : randint (pyInt (800 * 0.2)) (pyInt (800 * 0.8)) r1 = P
  obtain ⟨px, r2⟩ := P
  dsimp only
  generalize hQ : randint (pyInt (600 * 0.2)) (pyInt (600 * 0.5)) r2 = Q
  obtain ⟨py, r3⟩ := Q
  dsimp only
  generalize hR : randint 50 120 r3 = R
  obtain ⟨ps, r4⟩ := R
  dsimp only
  have h1 : RngEvolves r r1 := by
    have h := stateMap_evolves starOps_evolves (List.range 500) r
    rw [hS] at h; exact h
  have h2 : RngEvolves r1 r2 := by
    have h := randint_evolves (pyInt (800 * 0.2)) (pyInt (800 * 0.8)) r1
    rw [hP] at h; exact h
  have h3 : RngEvolves r2 r3 := by
    have h := randint_evolves (pyInt (600 * 0.2)) (pyInt (600 * 0.5)) r2
    rw [hQ] at h; exact h
  have h4 : RngEvolves r3 r4 := by
    have h := randint_evolves 50 120 r3
    rw [hR] at h; exact h
  exact ((h1.trans h2).trans h3).trans h4

/-- A window cell consumes one draw. -/
theorem windowCellOps_evolves (x wy wx : Int) (u : Rng) :
    RngEvolves u (windowCellOps x wy wx u).2 := step_evolves u

/-- A window row advances the RNG. -/
theorem windowRowOps_evolves (x bw wy : Int) (t : Rng) :
    RngEvolves t (windowRowOps x bw wy t).2 :=
  stateMap_evolves (windowCellOps_evolves x wy) _ _

/-- One building advances the RNG. -/
theorem cityBuildingOps_evolves (pl : String) (baseY x : Int) (s : Rng) :
    RngEvolves s (cityBuildingOps pl baseY x s).2 := by
  unfold cityBuildingOps
  simp only [randint, Rng.take]
  split
  · exact (steps_evolves s 5).trans (stateMap_evolves (windowRowOps_evolves x _) _ _)
  · exact steps_evolves s 5

/-- A city light consumes four draws. -/
theorem cityLightOps_evolves (roadY : Int) (i : Nat) (s : Rng) :
    RngEvolves s (cityLightOps roadY i s).2 := steps_evolves s 4

/-- The city extras advance the RNG. -/
theorem cityExtras_evolves (pl : String) (r : Rng) : RngEvolves r (cityExtras pl r).2 := by
  unfold cityExtras
  generalize List.range 10 = L
  exact ((randint_evolves 10 40 r).trans
      (stateMap_evolves (cityBuildingOps_evolves pl _) _ _)).trans
    (stateMap_evolves (cityLightOps_evolves _) _ _)

/-- A robot detail consumes five draws. -/
theorem robotDetailOps_evolves (robotX robotY robotW robotH hs : Int) (i : Nat) (s : Rng) :
    RngEvolves s (robotDetailOps robotX robotY robotW robotH hs i s).2 := steps_evolves s 5

/-- The robot extras advance the RNG. -/
theorem robotExtras_evolves (mc : Color) (r : Rng) : RngEvolves r (robotExtras mc r).2 := by
  unfold robotExtras
  generalize List.range 5 = L
  exact stateMap_evolves (robotDetailOps_evolves _ _ _ _ _) _ _

/-- The scene extras advance the RNG. -/
theorem extrasStage_evolves (ty : SceneType) (pl : String) (mc : Color) (r : Rng) :
    RngEvolves r (extrasStage ty pl mc r).2 := by
  cases ty with
  | space =>
    simp only [extrasStage]
    split
    · exact RngEvolves.refl r
    · exact spaceExtras_evolves pl mc r
  | city =>
    simp only [extrasStage]
    split
    · exact RngEvolves.refl r
    · exact cityExtras_evolves pl r
  | robot =>
    simp only [extrasStage]
    split
    · exact RngEvolves.refl r
    · exact robotExtras_evolves mc r
  | dragon => exact RngEvolves.refl r
  | landscape => exact RngEvolves.refl r

/-- A full render leaves the global RNG stream untouched and strictly
advances the index: a second call starts from a different state. -/
theorem renderFinal_advance (psin : ℚ → ℚ) (p : String) (r : Rng) :
    (renderFinal psin p r).stream = r.stream ∧ r.idx < (renderFinal psin p r).idx := by
  unfold renderFinal create_ai_image
  dsimp only
  generalize hM : mountainsStage psin r = M
  obtain ⟨mOps, r1⟩ := M
  dsimp only
  generalize hT : treesStage (strIn "magical" (pyLower p)) r1 = T
  obtain ⟨tOps, r2⟩ := T
  dsimp only
  generalize hG : magicStage (pyLower p) r2 = G
  obtain ⟨gOps, r3⟩ := G
  dsimp only
  generalize hD : dragonStage psin (mainColorOf p) (pyLower p) r3 = D
  obtain ⟨dOps, r4⟩ := D
  dsimp only
  generalize hE : extrasStage (imageType p) (pyLower p) (mainColorOf p) r4 = E
  obtain ⟨eOps, r5⟩ := E
  dsimp only
  have h1 : RngEvolves r r1 := by
    have h := mountainsStage_evolves psin r
    rw [hM] at h; exact h
  have h1x : r.idx + 1 ≤ r1.idx := by
    have h := mountainsStage_idx psin r
    rw [hM] at h; exact h
  have h2 : RngEvolves r1 r2 := by
    have h := treesStage_evolves (strIn "magical" (pyLower p)) r1
    rw [hT] at h; exact h
  have h3 : RngEvolves r2 r3 := by
    have h := magicStage_evolves (pyLower p) r2
    rw [hG] at h; exact h
  have h4 : RngEvolves r3 r4 := by
    have h := dragonStage_evolves psin (mainColorOf p) (pyLower p) r3
    rw [hD] at h; exact h
  have h5 : RngEvolves r4 r5 := by
    have h := extrasStage_evolves (imageType p) (pyLower p) (mainColorOf p) r4
    rw [hE] at h; exact h
  refine ⟨by rw [h5.1, h4.1, h3.1, h2.1, h1.1], ?_⟩
  have i2 := h2.2
  have i3 := h3.2
  have i4 := h4.2
  have i5 := h5.2
  omega

/-- A full render only advances the global RNG: the stream is untouched and
the index never decreases. -/
theorem renderFinal_evolves (psin : ℚ → ℚ) (p : String) (r : Rng) :
    RngEvolves r (renderFinal psin p r) :=
  ⟨(renderFinal_advance psin p r).1, Nat.le_of_lt (renderFinal_advance psin p r).2⟩

/-- A full render consumes at least one random draw: the global RNG index
strictly advances across a call, so a second call starts from a different
state. -/
theorem renderFinal_idx_lt (psin : ℚ → ℚ) (p : String) (r : Rng) :
    r.idx < (renderFinal psin p r).idx := (renderFinal_advance psin p r).2

/-- The stream of the global RNG is never replaced by a render. -/
theorem renderFinal_stream (psin : ℚ → ℚ) (p : String) (r : Rng) :
    (renderFinal psin p r).stream = r.stream := (renderFinal_advance psin p r).1

/-! ### Trace structure and stage-tag lemmas

Which drawing operations each pipeline stage can emit, and how the trace of a
full render decomposes into its stages. -/

/-- Unfolding a loop once, emission view. -/
theorem stateMap_cons_fst {α β : Type} (f : α → Rng → List β × Rng) (x : α) (xs : List α)
    (r : Rng) : (stateMap f (x :: xs) r).1 = (f x r).1 ++ (stateMap f xs (f x r).2).1 := rfl

/-- Loop emissions through an explicit destructuring equation. -/
theorem stateMap_sites_pair {α β : Type} {P : β → Prop} {f : α → Rng → List β × Rng}
    (hf : ∀ x r o, o ∈ (f x r).1 → P o) (xs : List α) (r : Rng) (ys : List β) (s : Rng)
    (hpair : stateMap f xs r = (ys, s)) : ∀ o ∈ ys, P o := by
  intro o ho
  apply stateMap_sites hf xs r o
  rw [hpair]
  exact ho

/-- The first component of a `randint` call, explicitly. -/
theorem randint_fst (a b : Int) (r : Rng) :
    (randint a b r).1 = a + ((r.stream r.idx : Int) % (b - a + 1)) := rfl

/-- An operation that is not a flame layer projects to no flame info. -/
theorem flameInfoOf_eq_none (o : Op) (h : siteTag o.site ≠ StageTag.flameT) :
    flameInfoOf o = none := by
  obtain ⟨s, sh⟩ := o
  cases s <;> cases sh <;> first | rfl | exact absurd rfl h

/-- An operation that is not a mountain projects to no height. -/
theorem mountainHeightOf_eq_none (o : Op) (h : siteTag o.site ≠ StageTag.mountainT) :
    mountainHeightOf o = none := by
  obtain ⟨s, sh⟩ := o
  cases s <;> first | rfl | exact absurd rfl h

/-- Sky operations are tagged sky. -/
theorem skyOps_tag (ty : SceneType) (o : Op) (ho : o ∈ skyOps ty) :
    siteTag o.site = StageTag.skyT := by
  unfold skyOps at ho
  obtain ⟨y, _, rfl⟩ := List.mem_map.mp ho
  rfl

/-- One mountain emits only mountain-tagged operations. -/
theorem mountainOps_tag (psin : ℚ → ℚ) : ∀ (i : Nat) (r : Rng) (o : Op),
    o ∈ (mountainOps psin i r).1 → siteTag o.site = StageTag.mountainT := by
  intro i r o ho
  unfold mountainOps at ho
  repeat first
  | split at ho
  | dsimp only at ho
  rw [List.mem_singleton] at ho
  subst ho
  rfl

/-- The mountain stage emits only mountain-tagged operations. -/
theorem mountainsStage_tag (psin : ℚ → ℚ) (r : Rng) (o : Op)
    (ho : o ∈ (mountainsStage psin r).1) : siteTag o.site = StageTag.mountainT :=
  stateMap_sites (mountainOps_tag psin) _ _ o ho

/-- A foliage circle emits only tree-tagged operations. -/
theorem treeCircleOps_tag (i : Nat) (x y hgt : Int) (w : ℚ) (fc : Color) : ∀ (j : Nat)
    (rr : Rng) (o : Op), o ∈ (treeCircleOps i x y hgt w fc j rr).1 →
    siteTag o.site = StageTag.treeT := by
  intro j rr o ho
  unfold treeCircleOps at ho
  repeat first
  | split at ho
  | dsimp only at ho
  rw [List.mem_singleton] at ho
  subst ho
  rfl

/-- One tree emits only tree-tagged operations. -/
theorem treeOps_tag (magical : Bool) : ∀ (i : Nat) (r : Rng) (o : Op),
    o ∈ (treeOps magical i r).1 → siteTag o.site = StageTag.treeT := by
  intro i r o ho
  unfold treeOps at ho
  repeat (any_goals (first | split at ho | dsimp only at ho))
  all_goals
    rcases List.mem_cons.mp ho with hEq | hmem
  · subst hEq; rfl
  · exact stateMap_sites (treeCircleOps_tag _ _ _ _ _ _) _ _ o hmem
  · subst hEq; rfl
  · exact stateMap_sites (treeCircleOps_tag _ _ _ _ _ _) _ _ o hmem

/-- The tree stage emits only tree-tagged operations. -/
theorem treesStage_tag (magical : Bool) (r : Rng) (o : Op)
    (ho : o ∈ (treesStage magical r).1) : siteTag o.site = StageTag.treeT :=
  stateMap_sites (treeOps_tag magical) _ _ o ho

/-- One sparkle emits only magic-tagged operations. -/
theorem sparkleOps_tag : ∀ (i : Nat) (r : Rng) (o : Op), o ∈ (sparkleOps i r).1 →
    siteTag o.site = StageTag.magicT := by
  intro i r o ho
  unfold sparkleOps at ho
  repeat first
  | split at ho
  | dsimp only at ho
  rw [List.mem_singleton] at ho
  subst ho
  rfl

/-- One mist ring emits only magic-tagged operations. -/
theorem mistRingOps_tag (i : Nat) (x y rx ry mx : Int) : ∀ (rr : Int) (s : Rng) (o : Op),
    o ∈ (mistRingOps i x y rx ry mx rr s).1 → siteTag o.site = StageTag.magicT := by
  intro rr s o ho
  unfold mistRingOps at ho
  repeat first
  | split at ho
  | dsimp only at ho
  rw [List.mem_singleton] at ho
  subst ho
  rfl

/-- One mist blob emits only magic-tagged operations. -/
theorem mistOps_tag : ∀ (i : Nat) (r : Rng) (o : Op), o ∈ (mistOps i r).1 →
    siteTag o.site = StageTag.magicT := by
  intro i r o ho
  unfold mistOps at ho
  repeat first
  | split at ho
  | dsimp only at ho
  exact stateMap_sites (mistRingOps_tag i _ _ _ _ _) _ _ o ho

/-- The magical stage emits only magic-tagged operations. -/
theorem magicStage_tag (pl : String) (r : Rng) (o : Op) (ho : o ∈ (magicStage pl r).1) :
    siteTag o.site = StageTag.magicT := by
  revert ho
  unfold magicStage
  split
  · generalize hS : stateMap sparkleOps (List.range 200) r = S
    obtain ⟨sOps, r1⟩ := S
    dsimp only
    generalize hM : stateMap mistOps (List.range 30) r1 = M
    obtain ⟨mOps, r2⟩ := M
    dsimp only
    intro ho
    rcases List.mem_append.mp ho with h | h
    · exact stateMap_sites_pair sparkleOps_tag _ _ _ _ hS o h
    · exact stateMap_sites_pair mistOps_tag _ _ _ _ hM o h
  · intro ho
    exact absurd ho (List.not_mem_nil o)

/-- Flame layers are tagged flame. -/
theorem flameLayers_tag (pts : List (ℚ × ℚ)) (o : Op) (ho : o ∈ flameLayers pts) :
    siteTag o.site = StageTag.flameT := by
  unfold flameLayers at ho
  dsimp only at ho
  obtain ⟨ic, _, rfl⟩ := List.mem_map.mp ho
  rfl

/-- The fire block emits only flame-tagged operations. -/
theorem fireStage_tag (pl : String) (r : Rng) (o : Op) (ho : o ∈ (fireStage pl r).1) :
    siteTag o.site = StageTag.flameT := by
  unfold fireStage at ho
  repeat (any_goals (first | split at ho | dsimp only at ho))
  all_goals
    first
    | exact flameLayers_tag _ o ho
    | exact absurd ho (List.not_mem_nil o)

/-- With "fire" in the prompt the fire block is the flame unconditionally:
the short-circuited `or` consumes no random draw. -/
theorem fireStage_fire (pl : String) (r : Rng) (h : strIn "fire" pl = true) :
    fireStage pl r = (flameLayers (firePoints r).1, (firePoints r).2) := by
  unfold fireStage
  rw [if_pos h]

/-- The dragon figure is a fixed block of dragon-tagged operations — present
for every scene type — followed by the fire block. -/
theorem dragonStage_decomp (psin : ℚ → ℚ) (mc : Color) (pl : String) (r : Rng) :
    ∃ fixed : List Op, (dragonStage psin mc pl r).1 = fixed ++ (fireStage pl r).1 ∧
      (∀ o ∈ fixed, siteTag o.site = StageTag.dragonFigT) ∧
      ∃ o ∈ fixed, siteTag o.site = StageTag.dragonFigT := by
  unfold dragonStage
  dsimp only
  generalize hF : fireStage pl r = F
  obtain ⟨fOps, r1⟩ := F
  dsimp only
  refine ⟨_, rfl, ?_, ?_⟩
  · intro o ho
    simp only [List.mem_append] at ho
    rcases ho with ((((((h | h) | h) | h) | h) | h) | h)
    · simp only [List.mem_cons, List.not_mem_nil, or_false] at h
      rcases h with rfl | rfl | rfl <;> rfl
    · obtain ⟨a, _, rfl⟩ := List.mem_map.mp h
      rfl
    · rw [List.mem_singleton] at h
      subst h
      rfl
    · obtain ⟨bt, _, hb⟩ := List.mem_flatMap.mp h
      obtain ⟨w, _, rfl⟩ := List.mem_map.mp hb
      rfl
    · rw [List.mem_singleton] at h
      subst h
      rfl
    · obtain ⟨bt, _, hb⟩ := List.mem_flatMap.mp h
      obtain ⟨w, _, rfl⟩ := List.mem_map.mp hb
      rfl
    · simp only [List.mem_cons, List.not_mem_nil, or_false] at h
      rcases h with rfl | rfl | rfl | rfl | rfl | rfl <;> rfl
  · exact ⟨_, List.mem_append_left _ (List.mem_append_left _ (List.mem_append_left _
      (List.mem_append_left _ (List.mem_append_left _ (List.mem_append_left _
        (List.mem_cons_self _ _)))))), rfl⟩

/-- One star emits only space-tagged operations. -/
theorem starOps_tag : ∀ (i : Nat) (s : Rng) (o : Op), o ∈ (starOps i s).1 →
    siteTag o.site = StageTag.spaceFxT := by
  intro i s o ho
  unfold starOps at ho
  repeat (any_goals (first | split at ho | dsimp only at ho))
  all_goals
    rw [List.mem_singleton] at ho
    subst ho
    rfl

/-- The space extras emit only space-tagged operations. -/
theorem spaceExtras_tag (pl : String) (mc : Color) (r : Rng) (o : Op)
    (ho : o ∈ (spaceExtras pl mc r).1) : siteTag o.site = StageTag.spaceFxT := by
  revert ho
  unfold spaceExtras
  generalize hS : stateMap starOps (List.range 500) r = S
  obtain ⟨sOps, r1⟩ := S
  dsimp only
  intro ho
  rcases List.mem_append.mp ho with h | h
  · rcases List.mem_append.mp h with h2 | h2
    · exact stateMap_sites_pair starOps_tag _ _ _ _ hS o h2
    · rw [List.mem_singleton] at h2
      subst h2
      rfl
  · split at h
    · obtain ⟨rs, _, rfl⟩ := List.mem_map.mp h
      rfl
    · exact absurd h (List.not_mem_nil o)

/-- One window cell emits only city-tagged operations. -/
theorem windowCellOps_tag (x wy : Int) : ∀ (wx : Int) (u : Rng) (o : Op),
    o ∈ (windowCellOps x wy wx u).1 → siteTag o.site = StageTag.cityFxT := by
  intro wx u o ho
  unfold windowCellOps at ho
  repeat (any_goals (first | split at ho | dsimp only at ho))
  all_goals
    first
    | exact absurd ho (List.not_mem_nil o)
    | (rw [List.mem_singleton] at ho; subst ho; rfl)

/-- One window row emits only city-tagged operations. -/
theorem windowRowOps_tag (x bw : Int) : ∀ (wy : Int) (t : Rng) (o : Op),
    o ∈ (windowRowOps x bw wy t).1 → siteTag o.site = StageTag.cityFxT := by
  intro wy t o ho
  unfold windowRowOps at ho
  exact stateMap_sites (windowCellOps_tag x wy) _ _ o ho

/-- One building emits only city-tagged operations. -/
theorem cityBuildingOps_tag (pl : String) (baseY : Int) : ∀ (x : Int) (s : Rng) (o : Op),
    o ∈ (cityBuildingOps pl baseY x s).1 → siteTag o.site = StageTag.cityFxT := by
  intro x s o ho
  unfold cityBuildingOps at ho
  repeat (any_goals (first | split at ho | dsimp only at ho))
  rename_i folOps r5 heq
  rcases List.mem_cons.mp ho with hEq | hmem
  · subst hEq; rfl
  · split at heq
    · exact stateMap_sites_pair (windowRowOps_tag _ _) _ _ _ _ heq o hmem
    · rw [Prod.mk.injEq] at heq
      obtain ⟨h1, h2⟩ := heq
      subst h1
      exact absurd hmem (List.not_mem_nil o)

/-- One city light emits only city-tagged operations. -/
theorem cityLightOps_tag (roadY : Int) : ∀ (i : Nat) (s : Rng) (o : Op),
    o ∈ (cityLightOps roadY i s).1 → siteTag o.site = StageTag.cityFxT := by
  intro i s o ho
  unfold cityLightOps at ho
  repeat (any_goals (first | split at ho | dsimp only at ho))
  all_goals
    rw [List.mem_singleton] at ho
    subst ho
    rfl

/-- The city extras emit only city-tagged operations. -/
theorem cityExtras_tag (pl : String) (r : Rng) (o : Op)
    (ho : o ∈ (cityExtras pl r).1) : siteTag o.site = StageTag.cityFxT := by
  revert ho
  unfold cityExtras
  dsimp only
  generalize hB : randint 10 40 r = B
  obtain ⟨step, r1⟩ := B
  dsimp only
  generalize hW : stateMap (cityBuildingOps pl (pyInt (600 * 0.7))) (pyRange 0 800 step) r1 = W
  obtain ⟨bOps, r2⟩ := W
  dsimp only
  generalize hL : stateMap (cityLightOps (pyInt (600 * 0.7))) (List.range 10) r2 = L
  obtain ⟨lightOps, r3⟩ := L
  dsimp only
  intro ho
  rcases List.mem_append.mp ho with h | h
  · rcases List.mem_append.mp h with h2 | h2
    · rcases List.mem_append.mp h2 with h3 | h3
      · exact stateMap_sites_pair (cityBuildingOps_tag pl _) _ _ _ _ hW o h3
      · rw [List.mem_singleton] at h3
        subst h3
        rfl
    · obtain ⟨xx, _, rfl⟩ := List.mem_map.mp h2
      rfl
  · exact stateMap_sites_pair (cityLightOps_tag _) _ _ _ _ hL o h

/-- One robot detail emits only robot-tagged operations. -/
theorem robotDetailOps_tag (robotX robotY robotW robotH hs : Int) : ∀ (i : Nat) (s : Rng)
    (o : Op), o ∈ (robotDetailOps robotX robotY robotW robotH hs i s).1 →
    siteTag o.site = StageTag.robotFxT := by
  intro i s o ho
  unfold robotDetailOps at ho
  repeat (any_goals (first | split at ho | dsimp only at ho))
  all_goals
    rw [List.mem_singleton] at ho
    subst ho
    rfl

/-- The robot extras emit only robot-tagged operations. -/
theorem robotExtras_tag (mc : Color) (r : Rng) (o : Op)
    (ho : o ∈ (robotExtras mc r).1) : siteTag o.site = StageTag.robotFxT := by
  revert ho
  unfold robotExtras
  dsimp only
  generalize hD : stateMap (robotDetailOps (pyFloorDiv 800 2) (pyFloorDiv 600 2)
    (pyInt (800 * 0.3)) (pyInt (600 * 0.5)) (pyFloorDiv (pyInt (800 * 0.3)) 2))
    (List.range 5) r = D
  obtain ⟨detailOps, r1⟩ := D
  dsimp only
  intro ho
  rcases List.mem_append.mp ho with h | h
  · simp only [List.mem_cons, List.not_mem_nil, or_false] at h
    rcases h with rfl | rfl | rfl | rfl | rfl | rfl | rfl | rfl <;> rfl
  · exact stateMap_sites_pair (robotDetailOps_tag _ _ _ _ _) _ _ _ _ hD o h

/-- The extras stage of a landscape scene is empty. -/
theorem extrasStage_landscape (pl : String) (mc : Color) (r : Rng) :
    extrasStage SceneType.landscape pl mc r = ([], r) := rfl

/-- The extras stage of a dragon scene is empty. -/
theorem extrasStage_dragonTy (pl : String) (mc : Color) (r : Rng) :
    extrasStage SceneType.dragon pl mc r = ([], r) := rfl

/-- Scene extras are tagged as scene extras. -/
theorem extrasStage_tag (ty : SceneType) (pl : String) (mc : Color) (r : Rng) (o : Op)
    (ho : o ∈ (extrasStage ty pl mc r).1) : isSceneExtraTag (siteTag o.site) = true := by
  cases ty with
  | space =>
    simp only [extrasStage] at ho
    split at ho
    · exact absurd ho (List.not_mem_nil o)
    · rw [spaceExtras_tag pl mc r o ho]
      rfl
  | city =>
    simp only [extrasStage] at ho
    split at ho
    · exact absurd ho (List.not_mem_nil o)
    · rw [cityExtras_tag pl r o ho]
      rfl
  | robot =>
    simp only [extrasStage] at ho
    split at ho
    · exact absurd ho (List.not_mem_nil o)
    · rw [robotExtras_tag mc r o ho]
      rfl
  | dragon => exact absurd ho (List.not_mem_nil o)
  | landscape => exact absurd ho (List.not_mem_nil o)

/-- Caption operations are tagged caption. -/
theorem captionOps_tag (p : String) (o : Op) (ho : o ∈ captionOps p) :
    siteTag o.site = StageTag.captionT := by
  rcases List.mem_cons.mp ho with rfl | h
  · rfl
  · rw [List.mem_singleton] at h
    subst h
    rfl

/-- The trace of a full render is the concatenation of the six stage
emissions and the caption, in source order. -/
theorem renderTrace_decomp (psin : ℚ → ℚ) (p : String) (r : Rng) :
    ∃ r1 r2 r3 r4 : Rng,
      renderTrace psin p r =
        skyOps (imageType p) ++ (mountainsStage psin r).1 ++
        (treesStage (strIn "magical" (pyLower p)) r1).1 ++
        (magicStage (pyLower p) r2).1 ++
        (dragonStage psin (mainColorOf p) (pyLower p) r3).1 ++
        (extrasStage (imageType p) (pyLower p) (mainColorOf p) r4).1 ++
        captionOps p := by
  unfold renderTrace create_ai_image
  dsimp only
  generalize hM : mountainsStage psin r = M
  obtain ⟨mOps, s1⟩ := M
  dsimp only
  generalize hT : treesStage (strIn "magical" (pyLower p)) s1 = T
  obtain ⟨tOps, s2⟩ := T
  dsimp only
  generalize hG : magicStage (pyLower p) s2 = G
  obtain ⟨gOps, s3⟩ := G
  dsimp only
  generalize hD : dragonStage psin (mainColorOf p) (pyLower p) s3 = D
  obtain ⟨dOps, s4⟩ := D
  dsimp only
  generalize hE : extrasStage (imageType p) (pyLower p) (mainColorOf p) s4 = E
  obtain ⟨eOps, s5⟩ := E
  dsimp only
  refine ⟨s1, s2, s3, s4, ?_⟩
  rw [hT, hG, hD, hE]

/-- The sky rows carry no mountain height. -/
theorem skyOps_noMountain (ty : SceneType) :
    (skyOps ty).findSome? mountainHeightOf = none := by
  rw [List.findSome?_eq_none_iff]
  intro o ho
  refine mountainHeightOf_eq_none o ?_
  rw [skyOps_tag ty o ho]
  decide

/-- The first mountain of the mountain stage carries the height drawn by the
very first `randint(int(600*0.2), int(600*0.4))` call. -/
theorem mountainOps_height (psin : ℚ → ℚ) (i : Nat) (r : Rng) :
    (mountainOps psin i r).1.findSome? mountainHeightOf =
      some ((randint (pyInt (600 * 0.2)) (pyInt (600 * 0.4)) r).1) := rfl

/-- The mountain stage's first recorded height is the first height draw. -/
theorem mountainsStage_firstHeight (psin : ℚ → ℚ) (r : Rng) :
    (mountainsStage psin r).1.findSome? mountainHeightOf =
      some ((randint (pyInt (600 * 0.2)) (pyInt (600 * 0.4)) r).1) := by
  unfold mountainsStage
  rw [show (List.range 5) = 0 :: [1, 2, 3, 4] from rfl, stateMap_cons_fst,
    List.findSome?_append, mountainOps_height psin 0 r]
  rfl

/-- The first mountain height of a full render trace is determined by the
first random draw of the RNG state the render starts from. -/
theorem firstMountain_render (psin : ℚ → ℚ) (p : String) (r : Rng) :
    firstMountainHeight (renderTrace psin p r) =
      some ((randint (pyInt (600 * 0.2)) (pyInt (600 * 0.4)) r).1) := by
  obtain ⟨r1, r2, r3, r4, hdec⟩ := renderTrace_decomp psin p r
  unfold firstMountainHeight
  rw [hdec]
  simp only [List.findSome?_append, skyOps_noMountain, mountainsStage_firstHeight]
  rfl

/-- A list of operations none of which is flame-tagged contributes no flame
info. -/
theorem filterMap_flame_nil (l : List Op) (h : ∀ o ∈ l, siteTag o.site ≠ StageTag.flameT) :
    l.filterMap flameInfoOf = [] :=
  List.filterMap_eq_nil_iff.mpr (fun o ho => flameInfoOf_eq_none o (h o ho))

/-- The flame info of the flame block: exactly the four nested layers with
scales 1, 0.8, 0.6, 0.4 and the inner-to-outer flame colours. -/
theorem flameLayers_info (pts : List (ℚ × ℚ)) :
    (flameLayers pts).filterMap flameInfoOf =
      [(0, 1, [255, 255, 200]), (1, 0.8, [255, 200, 50]),
       (2, 0.6, [255, 150, 0]), (3, 0.4, [255, 50, 0])] := by
  unfold flameLayers
  dsimp only
  rw [show flameColors.enum = [(0, [255, 255, 200]), (1, [255, 200, 50]),
    (2, [255, 150, 0]), (3, [255, 50, 0])] from by decide]
  dsimp only [List.map, List.filterMap, flameInfoOf]
  norm_num

/-- The flame info of a full render whose prompt contains "fire": the flame
is drawn, for every RNG state, as exactly the four nested layers. -/
theorem flameInfo_render (psin : ℚ → ℚ) (p : String) (r : Rng)
    (h : strIn "fire" (pyLower p) = true) :
    flameInfo (renderTrace psin p r) =
      [(0, 1, [255, 255, 200]), (1, 0.8, [255, 200, 50]),
       (2, 0.6, [255, 150, 0]), (3, 0.4, [255, 50, 0])] := by
  obtain ⟨r1, r2, r3, r4, hdec⟩ := renderTrace_decomp psin p r
  obtain ⟨fixed, hfix, htag, _⟩ := dragonStage_decomp psin (mainColorOf p) (pyLower p) r3
  unfold flameInfo
  rw [hdec, hfix, fireStage_fire (pyLower p) r3 h]
  simp only [List.filterMap_append]
  have h1 : (skyOps (imageType p)).filterMap flameInfoOf = [] :=
    filterMap_flame_nil _ (fun o ho => by rw [skyOps_tag _ o ho]; decide)
  have h2 : ((mountainsStage psin r).1).filterMap flameInfoOf = [] :=
    filterMap_flame_nil _ (fun o ho => by rw [mountainsStage_tag psin r o ho]; decide)
  have h3 : ((treesStage (strIn "magical" (pyLower p)) r1).1).filterMap flameInfoOf = [] :=
    filterMap_flame_nil _ (fun o ho => by rw [treesStage_tag _ r1 o ho]; decide)
  have h4 : ((magicStage (pyLower p) r2).1).filterMap flameInfoOf = [] :=
    filterMap_flame_nil _ (fun o ho => by rw [magicStage_tag _ r2 o ho]; decide)
  have h5 : fixed.filterMap flameInfoOf = [] :=
    filterMap_flame_nil _ (fun o ho => by rw [htag o ho]; decide)
  have h6 : ((extrasStage (imageType p) (pyLower p) (mainColorOf p) r4).1).filterMap
      flameInfoOf = [] := by
    refine filterMap_flame_nil _ (fun o ho hEq => ?_)
    have ht := extrasStage_tag _ _ _ _ o ho
    rw [hEq] at ht
    exact absurd ht (by decide)
  have h7 : (captionOps p).filterMap flameInfoOf = [] :=
    filterMap_flame_nil _ (fun o ho => by rw [captionOps_tag _ o ho]; decide)
  rw [h1, h2, h3, h4, h5, h6, h7, flameLayers_info]
  simp only [List.nil_append, List.append_nil]

/-- The success-path equation of `execute`: with a non-empty prompt the
pipeline runs end to end, stores the record with the tags of the prompt, and
returns the success envelope with the three artifact files. -/
theorem executeM_spec (data : ReqData) (mem : MemStore) (now now2 : Nat) (dbFail : Bool)
    (h : reqPrompt data ≠ "") :
    executeM data mem now now2 dbFail =
      (.success (execMessage (reqPrompt data) (expandedOf data mem) now now2)
        ("image_" ++ toString now ++ ".png") ("model_" ++ toString now ++ ".obj")
        ("view_" ++ toString now2 ++ ".html") "output",
       mmStore mem now (reqPrompt data) (expandedOf data mem) (imagePathOf now)
         (modelPathOf now) (tagsOf (reqPrompt data)) dbFail,
       [imagePathOf now, modelPathOf now, viewPathOf now]) := by
  unfold executeM expandedOf
  rw [if_neg h]
  generalize hX : extractMemoryReferences (reqPrompt data) mem = X
  obtain ⟨cleanPrompt, refMem⟩ := X
  dsimp only
  cases refMem <;> rfl

/-- After appending a strictly fresher record, the descending sort of the
table starts with that record. -/
theorem getRecent_head (db : List MemRec) (rec0 : MemRec)
    (hfresh : ∀ q ∈ db, q.ts < rec0.ts) :
    ((db ++ [rec0]).insertionSort tsGe).take 1 = [rec0] := by
  have hperm := List.perm_insertionSort tsGe (db ++ [rec0])
  have hsort := List.sorted_insertionSort tsGe (db ++ [rec0])
  cases hl : (db ++ [rec0]).insertionSort tsGe with
  | nil =>
    exfalso
    have hlen := hperm.length_eq
    rw [hl] at hlen
    simp at hlen
  | cons h0 t =>
    rw [hl] at hperm hsort
    have hmem : rec0 ∈ h0 :: t := hperm.mem_iff.mpr (by simp)
    have hh0 : h0 ∈ db ++ [rec0] := hperm.mem_iff.mp (List.mem_cons_self h0 t)
    have hh0eq : h0 = rec0 := by
      rcases List.mem_append.mp hh0 with hin | hin
      · rcases List.mem_cons.mp hmem with he | ht
        · exact he.symm
        · have hge : tsGe h0 rec0 := (List.sorted_cons.mp hsort).1 rec0 ht
          have hlt := hfresh h0 hin
          exact absurd hge (by unfold tsGe; omega)
      · rw [List.mem_singleton] at hin
        exact hin
    rw [hh0eq]
    rfl

/-! ### Claim theorems -/

/-- C1: prompts containing a dragon keyword (dragon/drake/wyvern/serpent)
classify as the dragon scene regardless of other category keywords, and
prompts containing no category keyword classify as landscape. -/
theorem C1_classification :
    (∀ p : String, dragonKeywords.any (fun k => strIn k (pyLower p)) = true →
      imageType p = SceneType.dragon) ∧
    (∀ p : String, dragonKeywords.any (fun k => strIn k (pyLower p)) = false →
      robotKeywords.any (fun k => strIn k (pyLower p)) = false →
      cityKeywords.any (fun k => strIn k (pyLower p)) = false →
      spaceKeywords.any (fun k => strIn k (pyLower p)) = false →
      imageType p = SceneType.landscape) := by
  constructor
  · intro p hp
    unfold imageType
    rw [if_pos hp]
  · intro p h1 h2 h3 h4
    simp [imageType, h1, h2, h3, h4]

/-- Witness for C1: "a dragon in a city" classifies as dragon although a city
keyword is present, and "a quiet meadow" classifies as landscape. -/
theorem C1_classification_witness :
    imageType "a dragon in a city" = SceneType.dragon ∧
    imageType "a quiet meadow" = SceneType.landscape :=
  ⟨C1_classification.1 "a dragon in a city" (by decide),
   C1_classification.2 "a quiet meadow" (by decide) (by decide) (by decide) (by decide)⟩

unseal Rat.mul Rat.add Rat.sub Rat.ofScientific Rat.inv in
/-- C2 counterexample: there is no seed anywhere in the pipeline; the global
RNG carries over between calls, so rendering the very same prompt twice in
a row yields two different traces (the first mountain height alone differs). -/
theorem C2_counterexample :
    renderTrace sin0 "a dragon" rng0 ≠
      renderTrace sin0 "a dragon" (renderFinal sin0 "a dragon" rng0) := by
  intro hEq
  have h1 := firstMountain_render sin0 "a dragon" rng0
  have h2 := firstMountain_render sin0 "a dragon" (renderFinal sin0 "a dragon" rng0)
  rw [← hEq] at h2
  rw [h1] at h2
  have hv0 : (randint (pyInt (600 * 0.2)) (pyInt (600 * 0.4)) rng0).1 = 120 := by
    rw [randint_fst]
    decide
  have hs : (renderFinal sin0 "a dragon" rng0).stream = rng0.stream :=
    renderFinal_stream sin0 "a dragon" rng0
  have hi : 0 < (renderFinal sin0 "a dragon" rng0).idx :=
    renderFinal_idx_lt sin0 "a dragon" rng0
  have hdraw : (renderFinal sin0 "a dragon" rng0).stream
      ((renderFinal sin0 "a dragon" rng0).idx) = 1 := by
    rw [hs]
    show (if (renderFinal sin0 "a dragon" rng0).idx = 0 then 0 else 1) = 1
    rw [if_neg (by omega)]
  have hv1 : (randint (pyInt (600 * 0.2)) (pyInt (600 * 0.4))
      (renderFinal sin0 "a dragon" rng0)).1 = 121 := by
    rw [randint_fst, hdraw]
    have e1 : pyInt (600 * 0.2) = 120 := by decide
    have e2 : pyInt (600 * 0.4) = 240 := by decide
    rw [e1, e2]
    decide
  rw [hv0, hv1] at h2
  exact absurd h2 (by decide)

/-- C2 corrected: the render is a deterministic function of the prompt and
the full RNG state (equal stream and index give byte-identical traces), and
each render preserves the stream while strictly advancing the index — which
is why two back-to-back calls see different states. -/
theorem C2_corrected (psin : ℚ → ℚ) (p : String) (r s : Rng)
    (hstream : s.stream = r.stream) (hidx : s.idx = r.idx) :
    renderTrace psin p s = renderTrace psin p r ∧
    (renderFinal psin p r).stream = r.stream ∧
    r.idx < (renderFinal psin p r).idx := by
  have hsr : s = r := by
    cases s
    cases r
    simp_all
  exact ⟨by rw [hsr], (renderFinal_advance psin p r).1, (renderFinal_advance psin p r).2⟩

/-- Witness for C2 corrected, at the concrete RNG `rng0` and prompt
"a dragon". -/
theorem C2_corrected_witness :
    renderTrace sin0 "a dragon" rng0 = renderTrace sin0 "a dragon" rng0 ∧
    (renderFinal sin0 "a dragon" rng0).stream = rng0.stream ∧
    rng0.idx < (renderFinal sin0 "a dragon" rng0).idx :=
  C2_corrected sin0 "a dragon" rng0 rng0 rfl rfl

/-- C3 counterexample: "a quiet meadow" classifies as landscape, yet its
trace contains a dragon-figure operation — the subject figure is drawn for
every scene type. -/
theorem C3_counterexample :
    imageType "a quiet meadow" = SceneType.landscape ∧
    ∃ o ∈ renderTrace sin0 "a quiet meadow" rng0,
      siteTag o.site = StageTag.dragonFigT := by
  constructor
  · decide
  · obtain ⟨r1, r2, r3, r4, hdec⟩ := renderTrace_decomp sin0 "a quiet meadow" rng0
    obtain ⟨fixed, hfix, htag, o0, ho0, htag0⟩ :=
      dragonStage_decomp sin0 (mainColorOf "a quiet meadow") (pyLower "a quiet meadow") r3
    refine ⟨o0, ?_, htag0⟩
    rw [hdec]
    refine List.mem_append_left _ (List.mem_append_left _ (List.mem_append_right _ ?_))
    rw [hfix]
    exact List.mem_append_left _ ho0

/-- C3 corrected: a landscape prompt gets no scene-type extra elements
(stages 1-4 and caption only among the guarded extras), but the dragon
subject figure is still always present in the trace. -/
theorem C3_corrected (psin : ℚ → ℚ) (p : String) (r : Rng)
    (h : imageType p = SceneType.landscape) :
    (∀ o ∈ renderTrace psin p r, isSceneExtraTag (siteTag o.site) = false) ∧
    ∃ o ∈ renderTrace psin p r, siteTag o.site = StageTag.dragonFigT := by
  obtain ⟨r1, r2, r3, r4, hdec⟩ := renderTrace_decomp psin p r
  obtain ⟨fixed, hfix, htag, o0, ho0, htag0⟩ :=
    dragonStage_decomp psin (mainColorOf p) (pyLower p) r3
  constructor
  · intro o ho
    rw [hdec] at ho
    simp only [List.mem_append] at ho
    rcases ho with ((((((h1 | h1) | h1) | h1) | h1) | h1) | h1)
    · rw [skyOps_tag _ o h1]; rfl
    · rw [mountainsStage_tag psin r o h1]; rfl
    · rw [treesStage_tag _ r1 o h1]; rfl
    · rw [magicStage_tag _ r2 o h1]; rfl
    · rw [hfix] at h1
      rcases List.mem_append.mp h1 with h2 | h2
      · rw [htag o h2]; rfl
      · rw [fireStage_tag _ r3 o h2]; rfl
    · rw [h, extrasStage_landscape] at h1
      exact absurd h1 (List.not_mem_nil o)
    · rw [captionOps_tag p o h1]; rfl
  · refine ⟨o0, ?_, htag0⟩
    rw [hdec]
    refine List.mem_append_left _ (List.mem_append_left _ (List.mem_append_right _ ?_))
    rw [hfix]
    exact List.mem_append_left _ ho0

/-- Witness for C3 corrected at the concrete landscape prompt
"a quiet meadow". -/
theorem C3_corrected_witness :
    imageType "a quiet meadow" = SceneType.landscape ∧
    ((∀ o ∈ renderTrace sin0 "a quiet meadow" rng0,
        isSceneExtraTag (siteTag o.site) = false) ∧
     ∃ o ∈ renderTrace sin0 "a quiet meadow" rng0,
       siteTag o.site = StageTag.dragonFigT) :=
  ⟨by decide, C3_corrected sin0 "a quiet meadow" rng0 (by decide)⟩

/-- C4 counterexample: in the ChromaDB store, `get_recent` caps the
collection at `limit` BEFORE sorting by timestamp, so after storing an older
and then a newer record, `get_recent(1)` returns the older record, not the
just-stored one. -/
theorem C4_counterexample :
    chromaGetRecent
      (chromaStore (chromaStore [] 1 "old" "old" "oi" "om" []) 2 "new" "new" "ni" "nm" []) 1 ≠
      [⟨2, 2, "new", "new", "ni", "nm", []⟩] := by
  decide

/-- C4 corrected: for the SQLite-backed `MemoryManager` (which sorts the
whole table), storing a record fresher than everything in the table and then
reading one record returns exactly that record; and for both stores
`get_recent(limit)` returns at most `limit` records in descending timestamp
order. -/
theorem C4_corrected (s : MemStore) (st : ChromaStore) (now : Nat)
    (prompt expanded ip mp : String) (tags : List String) (limit : Nat)
    (hfresh : ∀ q ∈ s.db, q.ts < now) :
    mmGetRecent (mmStore s now prompt expanded ip mp tags false) 1 =
      [⟨now, prompt, expanded, ip, mp, tags⟩] ∧
    (mmGetRecent s limit).length ≤ limit ∧
    List.Sorted tsGe (mmGetRecent s limit) ∧
    (chromaGetRecent st limit).length ≤ limit ∧
    List.Sorted chromaTsGe (chromaGetRecent st limit) := by
  refine ⟨?_, ?_, ?_, ?_, ?_⟩
  · exact getRecent_head s.db ⟨now, prompt, expanded, ip, mp, tags⟩ hfresh
  · unfold mmGetRecent
    rw [List.length_take]
    exact min_le_left _ _
  · unfold mmGetRecent
    exact List.Pairwise.sublist (List.take_sublist _ _) (List.sorted_insertionSort _ _)
  · unfold chromaGetRecent
    rw [List.length_take]
    exact min_le_left _ _
  · unfold chromaGetRecent
    exact List.Pairwise.sublist (List.take_sublist _ _) (List.sorted_insertionSort _ _)

/-- Witness for C4 corrected: a concrete store with one stale record. -/
theorem C4_corrected_witness :
    mmGetRecent (mmStore ⟨[], [⟨1, "p", "e", "i", "m", []⟩]⟩ 5 "q" "x" "i2" "m2" ["t"]
        false) 1 = [⟨5, "q", "x", "i2", "m2", ["t"]⟩] ∧
    (mmGetRecent ⟨[], [⟨1, "p", "e", "i", "m", []⟩]⟩ 3).length ≤ 3 ∧
    List.Sorted tsGe (mmGetRecent ⟨[], [⟨1, "p", "e", "i", "m", []⟩]⟩ 3) ∧
    (chromaGetRecent [] 3).length ≤ 3 ∧
    List.Sorted chromaTsGe (chromaGetRecent [] 3) := by
  have h := C4_corrected ⟨[], [⟨1, "p", "e", "i", "m", []⟩]⟩ [] 5 "q" "x" "i2" "m2" ["t"] 3
    (by intro q hq; rw [List.mem_singleton] at hq; subst hq; decide)
  exact ⟨h.1, h.2.1, h.2.2.1, h.2.2.2.1, h.2.2.2.2⟩

set_option maxRecDepth 40000 in
/-- C5 counterexample: neither constant mesh payload is literally 8 vertex
lines followed by 6 face lines — the payload of main.py opens with an empty
line and a comment line, and the payload of test_app.py opens with a comment
line. -/
theorem C5_counterexample :
    meshSpecConform mainObjData = false ∧ meshSpecConform testObjData = false := by
  constructor <;> decide

set_option maxRecDepth 40000 in
/-- C5 corrected: the 3D payload is constant — byte-identical across any two
invocations and independent of the input image — and its non-comment,
non-empty lines are exactly 8 vertex lines followed by 6 quadrilateral face
lines of the unit cube, for both constant payloads of the repository. -/
theorem C5_corrected (img1 img2 : String) :
    generate_image_to_3d img1 = generate_image_to_3d img2 ∧
    generate_image_to_3d img1 = some mainObjData ∧
    meshContentLines mainObjData =
      ["v -1.0 -1.0 -1.0", "v -1.0 -1.0 1.0", "v -1.0 1.0 -1.0", "v -1.0 1.0 1.0",
       "v 1.0 -1.0 -1.0", "v 1.0 -1.0 1.0", "v 1.0 1.0 -1.0", "v 1.0 1.0 1.0",
       "f 1 3 7 5", "f 2 6 8 4", "f 1 5 6 2", "f 3 4 8 7", "f 1 2 4 3", "f 5 7 8 6"] ∧
    meshContentLines testObjData =
      ["v -1.0 -1.0 -1.0", "v -1.0 -1.0 1.0", "v -1.0 1.0 -1.0", "v -1.0 1.0 1.0",
       "v 1.0 -1.0 -1.0", "v 1.0 -1.0 1.0", "v 1.0 1.0 -1.0", "v 1.0 1.0 1.0",
       "f 1 3 7 5", "f 2 6 8 4", "f 1 5 6 2", "f 3 4 8 7", "f 1 2 4 3", "f 5 7 8 6"] :=
  ⟨rfl, rfl, by decide, by decide⟩

/-- C6 counterexample: "sapphire" is not a palette keyword of
`create_dragon_forest_image` in main.py — a sapphire prompt falls through to
the default red triple there, not blue. -/
theorem C6_counterexample :
    dragonColorOf "a sapphire wyrm" = [180, 30, 30] := by
  decide

/-- C6 corrected: green/emerald prompts select the green triple in both
palettes; blue/ice prompts select the blue triple in both; a sapphire prompt
(without the earlier keywords) selects blue in test_app.py's palette but, in
the absence of every later keyword of main.py's palette, the default red
there; and the default is red. -/
theorem C6_corrected (p : String) :
    ((strIn "green" (pyLower p) || strIn "emerald" (pyLower p)) = true →
      mainColorOf p = [30, 150, 30] ∧ dragonColorOf p = [30, 150, 30]) ∧
    ((strIn "green" (pyLower p) || strIn "emerald" (pyLower p)) = false →
      (strIn "blue" (pyLower p) || strIn "ice" (pyLower p)) = true →
      mainColorOf p = [30, 30, 180] ∧ dragonColorOf p = [30, 30, 180]) ∧
    ((strIn "green" (pyLower p) || strIn "emerald" (pyLower p)) = false →
      (strIn "blue" (pyLower p) || strIn "ice" (pyLower p)) = false →
      strIn "sapphire" (pyLower p) = true →
      mainColorOf p = [30, 30, 180]) ∧
    ((strIn "green" (pyLower p) || strIn "emerald" (pyLower p)) = false →
      (strIn "blue" (pyLower p) || strIn "ice" (pyLower p)) = false →
      (strIn "gold" (pyLower p) || strIn "yellow" (pyLower p)) = false →
      (strIn "black" (pyLower p) || strIn "dark" (pyLower p)) = false →
      (strIn "white" (pyLower p) || strIn "silver" (pyLower p)) = false →
      dragonColorOf p = [180, 30, 30]) ∧
    ((strIn "green" (pyLower p) || strIn "emerald" (pyLower p)) = false →
      (strIn "blue" (pyLower p) || strIn "ice" (pyLower p)) = false →
      strIn "sapphire" (pyLower p) = false →
      (strIn "gold" (pyLower p) || strIn "yellow" (pyLower p)) = false →
      (strIn "black" (pyLower p) || strIn "dark" (pyLower p)) = false →
      (strIn "white" (pyLower p) || strIn "silver" (pyLower p)) = false →
      (strIn "purple" (pyLower p) || strIn "violet" (pyLower p) ||
        strIn "amethyst" (pyLower p)) = false →
      (strIn "orange" (pyLower p) || strIn "amber" (pyLower p)) = false →
      (strIn "pink" (pyLower p) || strIn "rose" (pyLower p)) = false →
      mainColorOf p = [180, 30, 30] ∧ dragonColorOf p = [180, 30, 30]) := by
  refine ⟨?_, ?_, ?_, ?_, ?_⟩
  · intro h
    rcases Bool.or_eq_true_iff.mp h with hg | he
    · constructor <;> simp [mainColorOf, dragonColorOf, hg]
    · constructor <;> simp [mainColorOf, dragonColorOf, he]
  · intro h1 h2
    rcases Bool.or_eq_false_iff.mp h1 with ⟨hg, he⟩
    rcases Bool.or_eq_true_iff.mp h2 with hb | hi
    · constructor <;> simp [mainColorOf, dragonColorOf, hg, he, hb]
    · constructor <;> simp [mainColorOf, dragonColorOf, hg, he, hi]
  · intro h1 h2 hs
    rcases Bool.or_eq_false_iff.mp h1 with ⟨hg, he⟩
    rcases Bool.or_eq_false_iff.mp h2 with ⟨hb, hi⟩
    simp [mainColorOf, hg, he, hb, hi, hs]
  · intro h1 h2 h3 h4 h5
    rcases Bool.or_eq_false_iff.mp h1 with ⟨hg, he⟩
    rcases Bool.or_eq_false_iff.mp h2 with ⟨hb, hi⟩
    rcases Bool.or_eq_false_iff.mp h3 with ⟨hgo, hy⟩
    rcases Bool.or_eq_false_iff.mp h4 with ⟨hbl, hd⟩
    rcases Bool.or_eq_false_iff.mp h5 with ⟨hw, hsi⟩
    simp [dragonColorOf, hg, he, hb, hi, hgo, hy, hbl, hd, hw, hsi]
  · intro h1 h2 hs h3 h4 h5 h6 h7 h8
    rcases Bool.or_eq_false_iff.mp h1 with ⟨hg, he⟩
    rcases Bool.or_eq_false_iff.mp h2 with ⟨hb, hi⟩
    rcases Bool.or_eq_false_iff.mp h3 with ⟨hgo, hy⟩
    rcases Bool.or_eq_false_iff.mp h4 with ⟨hbl, hd⟩
    rcases Bool.or_eq_false_iff.mp h5 with ⟨hw, hsi⟩
    rcases Bool.or_eq_false_iff.mp h6 with ⟨h6a, hv⟩
    rcases Bool.or_eq_false_iff.mp h6a with ⟨hpu, hvi⟩
    rcases Bool.or_eq_false_iff.mp h7 with ⟨hor, ham⟩
    rcases Bool.or_eq_false_iff.mp h8 with ⟨hpk, hro⟩
    constructor
    · simp [mainColorOf, hg, he, hb, hi, hs, hgo, hy, hbl, hd, hw, hsi, hpu, hvi, hv,
        hor, ham, hpk, hro]
    · simp [dragonColorOf, hg, he, hb, hi, hgo, hy, hbl, hd, hw, hsi]

/-- Witness for C6 corrected at the prompts "a sapphire wyrm" (blue in the
renderer palette, red in main.py's dragon palette) and "a plain wyrm" (the
default red triple in both palettes). -/
theorem C6_corrected_witness :
    mainColorOf "a sapphire wyrm" = [30, 30, 180] ∧
    dragonColorOf "a sapphire wyrm" = [180, 30, 30] ∧
    mainColorOf "a plain wyrm" = [180, 30, 30] ∧
    dragonColorOf "a plain wyrm" = [180, 30, 30] :=
  ⟨(C6_corrected "a sapphire wyrm").2.2.1 (by decide) (by decide) (by decide),
   (C6_corrected "a sapphire wyrm").2.2.2.1 (by decide) (by decide) (by decide) (by decide)
     (by decide),
   ((C6_corrected "a plain wyrm").2.2.2.2 (by decide) (by decide) (by decide) (by decide)
     (by decide) (by decide) (by decide) (by decide) (by decide)).1,
   ((C6_corrected "a plain wyrm").2.2.2.2 (by decide) (by decide) (by decide) (by decide)
     (by decide) (by decide) (by decide) (by decide) (by decide)).2⟩

/-- C7: every prompt containing "fire" (case-insensitively) forces the flame
for every RNG state — the short-circuited `or` never consults the random
draw — and the flame is exactly 4 nested colour layers with scales
1, 0.8, 0.6, 0.4 toward the flame core. -/
theorem C7_fire_flame (psin : ℚ → ℚ) (p : String) (r : Rng)
    (h : strIn "fire" (pyLower p) = true) :
    flameInfo (renderTrace psin p r) =
      [(0, 1, [255, 255, 200]), (1, 0.8, [255, 200, 50]),
       (2, 0.6, [255, 150, 0]), (3, 0.4, [255, 50, 0])] :=
  flameInfo_render psin p r h

/-- Witness for C7 at "a dragon breathing fire" and the concrete RNG. -/
theorem C7_fire_flame_witness :
    strIn "fire" (pyLower "a dragon breathing fire") = true ∧
    flameInfo (renderTrace sin0 "a dragon breathing fire" rng0) =
      [(0, 1, [255, 255, 200]), (1, 0.8, [255, 200, 50]),
       (2, 0.6, [255, 150, 0]), (3, 0.4, [255, 50, 0])] :=
  ⟨by decide, C7_fire_flame sin0 "a dragon breathing fire" rng0 (by decide)⟩

/-- C8: for every successfully processed prompt (the non-empty-prompt path),
the stored MemoryRecord carries exactly the tags computed from the prompt —
the whitespace-split tokens longer than 3 characters, lower-cased, in
order — and that function coincides with the specification's tag function. -/
theorem C8_tags (data : ReqData) (mem : MemStore) (now now2 : Nat) (dbFail : Bool)
    (h : reqPrompt data ≠ "") :
    tagsOf (reqPrompt data) = specTags (reqPrompt data) ∧
    (executeM data mem now now2 dbFail).2.1 =
      mmStore mem now (reqPrompt data) (expandedOf data mem) (imagePathOf now)
        (modelPathOf now) (tagsOf (reqPrompt data)) dbFail ∧
    (dbFail = false →
      ((executeM data mem now now2 dbFail).2.1).db =
        mem.db ++ [⟨now, reqPrompt data, expandedOf data mem, imagePathOf now,
          modelPathOf now, tagsOf (reqPrompt data)⟩]) := by
  refine ⟨rfl, ?_, ?_⟩
  · rw [executeM_spec data mem now now2 dbFail h]
  · intro hdb
    subst hdb
    rw [executeM_spec data mem now now2 false h]
    rfl

/-- Witness for C8 at a concrete request. -/
theorem C8_tags_witness :
    tagsOf (reqPrompt [("prompt", "a Red Dragon")]) =
      specTags (reqPrompt [("prompt", "a Red Dragon")]) ∧
    (executeM [("prompt", "a Red Dragon")] ⟨[], []⟩ 7 9 false).2.1 =
      mmStore ⟨[], []⟩ 7 (reqPrompt [("prompt", "a Red Dragon")])
        (expandedOf [("prompt", "a Red Dragon")] ⟨[], []⟩) (imagePathOf 7)
        (modelPathOf 7) (tagsOf (reqPrompt [("prompt", "a Red Dragon")])) false ∧
    (false = false →
      ((executeM [("prompt", "a Red Dragon")] ⟨[], []⟩ 7 9 false).2.1).db =
        [] ++ [⟨7, reqPrompt [("prompt", "a Red Dragon")],
          expandedOf [("prompt", "a Red Dragon")] ⟨[], []⟩, imagePathOf 7,
          modelPathOf 7, tagsOf (reqPrompt [("prompt", "a Red Dragon")])⟩]) :=
  C8_tags [("prompt", "a Red Dragon")] ⟨[], []⟩ 7 9 false (by decide)

set_option maxRecDepth 40000 in
/-- C9 counterexample: a whitespace-only prompt is NOT rejected — `if not
user_prompt` is false for " ", so the endpoint returns 200 with the full
success envelope and artifact files; and an empty-string prompt yields 200
(a message-only body), not a 400. -/
theorem C9_counterexample :
    isOkResp (generateEndpoint (some [("prompt", " ")]) ⟨[], []⟩ 7 9 false).1 = true ∧
    isSuccessEnvelope (executeM [("prompt", " ")] ⟨[], []⟩ 7 9 false).1 = true ∧
    (executeM [("prompt", " ")] ⟨[], []⟩ 7 9 false).2.2 ≠ [] ∧
    isOkResp (generateEndpoint (some [("prompt", "")]) ⟨[], []⟩ 7 9 false).1 = true := by
  refine ⟨by decide, by decide, by decide, by decide⟩

/-- C9 corrected: only an absent body or an absent "prompt" key yields the
400 response (with no artifacts); an empty-string prompt passes the endpoint
check and produces a 200 message-only response with no artifacts and no
memory write. -/
theorem C9_corrected (mem : MemStore) (now now2 : Nat) (dbFail : Bool) :
    generateEndpoint none mem now now2 dbFail =
      (.badRequest "Missing \x27prompt\x27 in request", mem, []) ∧
    (∀ kv : ReqData, kv.lookup "prompt" = none →
      generateEndpoint (some kv) mem now now2 dbFail =
        (.badRequest "Missing \x27prompt\x27 in request", mem, [])) ∧
    (∀ kv : ReqData, kv.lookup "prompt" = some "" →
      generateEndpoint (some kv) mem now now2 dbFail =
        (.ok (.messageOnly "Please provide a prompt to generate content."), mem, [])) := by
  refine ⟨rfl, ?_, ?_⟩
  · intro kv hk
    simp [generateEndpoint, hk]
  · intro kv hk
    have hkv : kv.isEmpty = false := by
      cases kv with
      | nil => simp at hk
      | cons a t => rfl
    simp only [generateEndpoint, hkv, hk, Option.isNone_some, Bool.or_self]
    unfold executeM reqPrompt
    rw [hk]
    rfl

/-- Witness for C9 corrected at concrete requests. -/
theorem C9_corrected_witness :
    generateEndpoint none ⟨[], []⟩ 7 9 false =
      (.badRequest "Missing \x27prompt\x27 in request", ⟨[], []⟩, []) ∧
    generateEndpoint (some [("x", "y")]) ⟨[], []⟩ 7 9 false =
      (.badRequest "Missing \x27prompt\x27 in request", ⟨[], []⟩, []) ∧
    generateEndpoint (some [("prompt", "")]) ⟨[], []⟩ 7 9 false =
      (.ok (.messageOnly "Please provide a prompt to generate content."), ⟨[], []⟩, []) :=
  ⟨(C9_corrected ⟨[], []⟩ 7 9 false).1,
   (C9_corrected ⟨[], []⟩ 7 9 false).2.1 [("x", "y")] (by decide),
   (C9_corrected ⟨[], []⟩ 7 9 false).2.2 [("prompt", "")] (by decide)⟩

/-- C10: when the long-term INSERT fails inside `MemoryManager.store`, the
exception is swallowed — `execute` still returns the success envelope with
the three artifact files, the SQLite table is unchanged, and the record is
still placed in short-term session memory. -/
theorem C10_store_failure (data : ReqData) (mem : MemStore) (now now2 : Nat)
    (h : reqPrompt data ≠ "") :
    isSuccessEnvelope (executeM data mem now now2 true).1 = true ∧
    ((executeM data mem now now2 true).2.1).db = mem.db ∧
    ((executeM data mem now now2 true).2.1).shortTerm =
      dictInsert now ⟨now, reqPrompt data, expandedOf data mem, imagePathOf now,
        modelPathOf now, tagsOf (reqPrompt data)⟩ mem.shortTerm ∧
    (executeM data mem now now2 true).2.2 =
      [imagePathOf now, modelPathOf now, viewPathOf now] := by
  rw [executeM_spec data mem now now2 true h]
  exact ⟨rfl, rfl, rfl, rfl⟩

/-- Witness for C10 at a concrete request with the injected DB failure. -/
theorem C10_store_failure_witness :
    isSuccessEnvelope (executeM [("prompt", "a Red Dragon")] ⟨[], []⟩ 7 9 true).1 = true ∧
    ((executeM [("prompt", "a Red Dragon")] ⟨[], []⟩ 7 9 true).2.1).db = [] ∧
    ((executeM [("prompt", "a Red Dragon")] ⟨[], []⟩ 7 9 true).2.1).shortTerm =
      dictInsert 7 ⟨7, reqPrompt [("prompt", "a Red Dragon")],
        expandedOf [("prompt", "a Red Dragon")] ⟨[], []⟩, imagePathOf 7,
        modelPathOf 7, tagsOf (reqPrompt [("prompt", "a Red Dragon")])⟩ [] ∧
    (executeM [("prompt", "a Red Dragon")] ⟨[], []⟩ 7 9 true).2.2 =
      [imagePathOf 7, modelPathOf 7, viewPathOf 7] :=
  C10_store_failure [("prompt", "a Red Dragon")] ⟨[], []⟩ 7 9 (by decide)

set_option maxRecDepth 40000 in
/-- Witness for C5 at two distinct concrete inputs. -/
theorem C5_corrected_witness :
    generate_image_to_3d "imgA" = generate_image_to_3d "imgB" ∧
    generate_image_to_3d "imgA" = some mainObjData ∧
    meshContentLines mainObjData =
      ["v -1.0 -1.0 -1.0", "v -1.0 -1.0 1.0", "v -1.0 1.0 -1.0", "v -1.0 1.0 1.0",
       "v 1.0 -1.0 -1.0", "v 1.0 -1.0 1.0", "v 1.0 1.0 -1.0", "v 1.0 1.0 1.0",
       "f 1 3 7 5", "f 2 6 8 4", "f 1 5 6 2", "f 3 4 8 7", "f 1 2 4 3", "f 5 7 8 6"] ∧
    meshContentLines testObjData =
      ["v -1.0 -1.0 -1.0", "v -1.0 -1.0 1.0", "v -1.0 1.0 -1.0", "v -1.0 1.0 1.0",
       "v 1.0 -1.0 -1.0", "v 1.0 -1.0 1.0", "v 1.0 1.0 -1.0", "v 1.0 1.0 1.0",
       "f 1 3 7 5", "f 2 6 8 4", "f 1 5 6 2", "f 3 4 8 7", "f 1 2 4 3", "f 5 7 8 6"] :=
  C5_corrected "imgA" "imgB"
